import Mathlib

/-!
# Verification of the indradb script map-reduce executor

This file embeds the dispatch/aggregation core of the map-reduce executor
found in `src/bin/src/server/script/mapreduce.rs` (the `Worker` /
`WorkerPool` draft, called MR below) and
`src/bin/src/server/script/workers.rs` (the `MapReduceWorker` /
`MapReduceWorkerPool` draft, called WK below) as small-step transition
systems, and proves properties of the dispatcher ("router") loop.

Modelling conventions:
* Channels are lists / counters; bounded capacity never matters for the
  properties proved here, so queues are unbounded.
* A `send` on the worker-input channel fails exactly when every worker has
  exited (`alive = 0`), matching crossbeam's disconnection semantics: the
  router keeps the only other endpoints, and each worker drops its clone of
  the receiver when its thread returns.
* In MR, the router iteration's branch choice (the if/else chain at
  mapreduce.rs:178-208) and the subsequent `worker_in_sender.send` are not
  atomic with respect to worker exits, so an iteration that performs a send
  is split into phase A (branch choice, mapreduce.rs:186/200) and phase B
  (the send and the updates after it, mapreduce.rs:191-196/202-207); a
  worker may exit between the two.  The pending action is recorded in `rpc`.
* Worker script evaluation is abstracted by two functions
  `fMap : V → Except E J` and `fRed : J → J → Except E J`; a worker whose
  call fails sends the error on the error channel and returns
  (mapreduce.rs:87-99 with `try_or_send!`), which is the `workErr` step.
  A worker that fails setup (mapreduce.rs:46-80) dies without consuming a
  task: the `setupFail` step.
* Ghost fields `issued`, `completed`, `mapIssued`, `redIssued`, `deadTasks`
  count successful sends to the worker input channel, outputs consumed from
  the worker output channel, Map/Reduce tasks issued, and tasks consumed by
  a worker that then died; they are write-only instrumentation.
-/

/-- A task sent to the worker input channel
(`WorkerTask` at mapreduce.rs:29-32, `MapReduceWorkerTask` at workers.rs:48-51). -/
inductive WTask (V J : Type) where
  | map (v : V)
  | reduce (a b : J)
deriving Repr, DecidableEq

/-- The action the MR router has chosen in phase A of an iteration and has
yet to send (the `worker_in_sender.send` at mapreduce.rs:191 / 202). -/
inductive PendAct (V J : Type) where
  | map (v : V)
  | red (a b : J)
deriving Repr, DecidableEq

/-- The value returned by the MR router thread (mapreduce.rs:217-229).
`ok none` is `Ok(JsonValue::Null)`, `ok (some j)` is `Ok(j)`, `err e` is
`Err(e)`, and `crashed` is the `expect` panic at mapreduce.rs:219 firing
on an empty error channel. -/
inductive ROutcome (J E : Type) where
  | ok (c : Option J)
  | err (e : E)
  | crashed
deriving Repr, DecidableEq

/-- State of the MR system: router-local variables (mapreduce.rs:171-176),
channel contents, the number of live workers, and ghost counters. -/
structure MRState (V J E : Type) where
  progress : Nat
  pending : Nat
  reportNum : Nat
  force : Bool
  graceful : Bool
  carry : Option J
  rpc : Option (PendAct V J)
  done : Option (ROutcome J E)
  errorQ : List E
  shutdownQ : Nat
  reportQ : Nat
  workerOutQ : List J
  workerInQ : List (WTask V J)
  inputQ : List V
  alive : Nat
  issued : Nat
  completed : Nat
  mapIssued : Nat
  redIssued : Nat
  deadTasks : Nat

/-- The MR router's result once the loop exits (mapreduce.rs:216-229): on
force shutdown, the first queued error (`try_recv().expect(..)` at
mapreduce.rs:219); otherwise the carry (`last_reduced_item`), `Null` when
absent. -/
def mrResult {V J E : Type} (s : MRState V J E) : ROutcome J E :=
  if s.force then
    match s.errorQ with
    | e :: _ => ROutcome.err e
    | [] => ROutcome.crashed
  else
    ROutcome.ok s.carry

/-- The shutdown check ending every MR router iteration (mapreduce.rs:211):
exit when `should_force_shutdown || (should_gracefully_shutdown &&
pending_tasks == 0)`, recording the result in `done`. -/
def mrCheck {V J E : Type} (s : MRState V J E) : MRState V J E :=
  if s.force = true ∨ (s.graceful = true ∧ s.pending = 0) then
    { s with done := some (mrResult s) }
  else
    s

/-- Phase A of an MR router iteration: the prioritized if/else chain at
mapreduce.rs:178-208.  Branches that do not send finish the iteration
(including the shutdown check); the two sending branches record the send in
`rpc` and defer it to `mrIterB`. -/
def mrIterA {V J E : Type} (s : MRState V J E) : MRState V J E :=
  match s.errorQ with
  | _ :: _ =>
      -- mapreduce.rs:179-180: a queued worker error forces shutdown
      mrCheck { s with force := true }
  | [] =>
  match s.shutdownQ with
  | n + 1 =>
      -- mapreduce.rs:181-182: a queued shutdown signal is consumed
      mrCheck { s with shutdownQ := n, graceful := true }
  | 0 =>
  match s.reportQ with
  | n + 1 =>
      -- mapreduce.rs:183-185: a reporter tick is consumed and reported
      mrCheck { s with reportQ := n, reportNum := s.reportNum + 1 }
  | 0 =>
  match s.workerOutQ with
  | v :: rest =>
      (match s.carry with
       | some c =>
           -- mapreduce.rs:186-196: output consumed, carry present: a
           -- Reduce dispatch is pending (send + updates in phase B)
           { s with workerOutQ := rest, pending := s.pending - 1,
                    completed := s.completed + 1,
                    rpc := some (PendAct.red c v) }
       | none =>
           -- mapreduce.rs:186-188, 197-199: output consumed, no carry:
           -- it becomes the carry
           mrCheck { s with workerOutQ := rest, pending := s.pending - 1,
                            completed := s.completed + 1, carry := some v })
  | [] =>
  match s.inputQ with
  | v :: rest =>
      -- mapreduce.rs:200: input vertex consumed: a Map dispatch is pending
      { s with inputQ := rest, rpc := some (PendAct.map v) }
  | [] =>
      -- no source ready: the iteration only performs the shutdown check
      mrCheck s

/-- Phase B of an MR router iteration: the deferred send and everything
after it.  A Map dispatch is mapreduce.rs:200-208 (`pending_tasks += 1;
progress += 1` run whether or not the send failed); a Reduce dispatch is
mapreduce.rs:189-196 (`pending_tasks += 1; last_reduced_item = None` run
whether or not the send failed).  A failed send sets
`should_force_shutdown` (mapreduce.rs:192/203). -/
def mrIterB {V J E : Type} (a : PendAct V J) (s : MRState V J E) : MRState V J E :=
  match a with
  | PendAct.map v =>
      if 0 < s.alive then
        mrCheck { s with workerInQ := s.workerInQ ++ [WTask.map v],
                         issued := s.issued + 1, mapIssued := s.mapIssued + 1,
                         pending := s.pending + 1, progress := s.progress + 1,
                         rpc := none }
      else
        mrCheck { s with force := true,
                         pending := s.pending + 1, progress := s.progress + 1,
                         rpc := none }
  | PendAct.red a b =>
      if 0 < s.alive then
        mrCheck { s with workerInQ := s.workerInQ ++ [WTask.reduce a b],
                         issued := s.issued + 1, redIssued := s.redIssued + 1,
                         pending := s.pending + 1, carry := none,
                         rpc := none }
      else
        mrCheck { s with force := true,
                         pending := s.pending + 1, carry := none,
                         rpc := none }

/-- One task execution by a worker: `map` on a vertex or `reduce` on a pair
(mapreduce.rs:85-100, workers.rs:72-79). -/
def evalTask {V J E : Type} (fMap : V → Except E J) (fRed : J → J → Except E J) :
    WTask V J → Except E J
  | WTask.map v => fMap v
  | WTask.reduce a b => fRed a b

/-- Small-step transition relation of the MR system.  Router steps are
guarded by `done = none` (the thread has not returned); worker and
environment steps may interleave anywhere. -/
inductive MRStep {V J E : Type} (fMap : V → Except E J) (fRed : J → J → Except E J) :
    MRState V J E → MRState V J E → Prop where
  /-- One router iteration that is not in the middle of a send. -/
  | routerA {s : MRState V J E} :
      s.done = none → s.rpc = none → MRStep fMap fRed s (mrIterA s)
  /-- The send half of a router iteration. -/
  | routerB {s : MRState V J E} {a : PendAct V J} :
      s.done = none → s.rpc = some a → MRStep fMap fRed s (mrIterB a s)
  /-- A live worker takes any queued task, executes it successfully and
  sends the value on the output channel (mapreduce.rs:84-102). -/
  | workOk {s : MRState V J E} {i : Nat} {t : WTask V J} {j : J} :
      s.workerInQ.get? i = some t → 0 < s.alive →
      evalTask fMap fRed t = Except.ok j →
      MRStep fMap fRed s
        { s with workerInQ := s.workerInQ.eraseIdx i,
                 workerOutQ := s.workerOutQ ++ [j] }
  /-- A live worker takes any queued task, the call fails, the worker sends
  the error and returns (mapreduce.rs:87-99). -/
  | workErr {s : MRState V J E} {i : Nat} {t : WTask V J} {e : E} :
      s.workerInQ.get? i = some t → 0 < s.alive →
      evalTask fMap fRed t = Except.error e →
      MRStep fMap fRed s
        { s with workerInQ := s.workerInQ.eraseIdx i,
                 errorQ := s.errorQ ++ [e], alive := s.alive - 1,
                 deadTasks := s.deadTasks + 1 }
  /-- A worker fails before processing any task (setup, mapreduce.rs:46-80):
  it sends the error and returns. -/
  | setupFail {s : MRState V J E} (e : E) :
      0 < s.alive →
      MRStep fMap fRed s
        { s with errorQ := s.errorQ ++ [e], alive := s.alive - 1 }
  /-- The facade sends a shutdown signal (mapreduce.rs:252). -/
  | signalShutdown {s : MRState V J E} :
      MRStep fMap fRed s { s with shutdownQ := s.shutdownQ + 1 }
  /-- The reporter thread consumes a shutdown signal instead of the router
  (mapreduce.rs:164: both share the channel). -/
  | stealShutdown {s : MRState V J E} :
      0 < s.shutdownQ →
      MRStep fMap fRed s { s with shutdownQ := s.shutdownQ - 1 }
  /-- The reporter thread emits a tick (mapreduce.rs:165). -/
  | tick {s : MRState V J E} :
      MRStep fMap fRed s { s with reportQ := s.reportQ + 1 }

/-- Reachability in the MR system. -/
def MRReach {V J E : Type} (fMap : V → Except E J) (fRed : J → J → Except E J)
    (a b : MRState V J E) : Prop :=
  Relation.ReflTransGen (MRStep fMap fRed) a b

/-- Initial state of an MR run: router variables zeroed
(mapreduce.rs:171-176), the submitted vertices queued on the input channel,
`n` live workers (mapreduce.rs:148-158). -/
def mrInit {V J E : Type} (inputs : List V) (n : Nat) : MRState V J E :=
  { progress := 0, pending := 0, reportNum := 0, force := false,
    graceful := false, carry := none, rpc := none, done := none,
    errorQ := [], shutdownQ := 0, reportQ := 0, workerOutQ := [],
    workerInQ := [], inputQ := inputs, alive := n, issued := 0,
    completed := 0, mapIssued := 0, redIssued := 0, deadTasks := 0 }

/-! ## Spec-side description of the MR router's source priority (for C8)

The spec says: "On each iteration, examine sources in a fixed priority
order; the first match is handled and the loop re-enters", the order being
worker errors, shutdown signal, reporter tick, worker output, input vertex.
These definitions follow the spec's words; the theorem for C8 compares them
with `mrIterA`, which follows the code. -/

/-- The five sources the spec's selection policy examines. -/
inductive MRSource where
  | errors
  | shutdown
  | report
  | output
  | input
deriving Repr, DecidableEq

/-- Whether a source has something queued. -/
def mrSourceQueued {V J E : Type} (s : MRState V J E) : MRSource → Bool
  | MRSource.errors => !s.errorQ.isEmpty
  | MRSource.shutdown => s.shutdownQ != 0
  | MRSource.report => s.reportQ != 0
  | MRSource.output => !s.workerOutQ.isEmpty
  | MRSource.input => !s.inputQ.isEmpty

/-- The spec's fixed priority order over sources. -/
def mrSourceOrder : List MRSource :=
  [MRSource.errors, MRSource.shutdown, MRSource.report,
   MRSource.output, MRSource.input]

/-- Handle one (already chosen) source the way the spec describes each
branch; `none` means no source was queued and only the termination check
runs. -/
def mrSpecHandle {V J E : Type} (s : MRState V J E) : Option MRSource → MRState V J E
  | some MRSource.errors => mrCheck { s with force := true }
  | some MRSource.shutdown =>
      mrCheck { s with shutdownQ := s.shutdownQ - 1, graceful := true }
  | some MRSource.report =>
      mrCheck { s with reportQ := s.reportQ - 1, reportNum := s.reportNum + 1 }
  | some MRSource.output =>
      match s.workerOutQ with
      | v :: rest =>
          (match s.carry with
           | some c =>
               { s with workerOutQ := rest, pending := s.pending - 1,
                        completed := s.completed + 1,
                        rpc := some (PendAct.red c v) }
           | none =>
               mrCheck { s with workerOutQ := rest, pending := s.pending - 1,
                                completed := s.completed + 1, carry := some v })
      | [] => mrCheck s
  | some MRSource.input =>
      match s.inputQ with
      | v :: rest => { s with inputQ := rest, rpc := some (PendAct.map v) }
      | [] => mrCheck s
  | none => mrCheck s

/-- The spec-side router iteration: find the first queued source in
priority order and handle it. -/
def mrSpecIter {V J E : Type} (s : MRState V J E) : MRState V J E :=
  mrSpecHandle s (mrSourceOrder.find? (mrSourceQueued s))

/-! ## The WK draft (`workers.rs`)

The `MapReduceWorkerPool` router (workers.rs:139-195) differs from MR: it
has no error channel and no reporter; `select_loop!` picks any ready source
with no priority; a failed dispatch increments no counter (the `else`
branches at workers.rs:151-153 and 162-164); worker failures surface as the
`Err` results of joined threads, checked only at termination
(workers.rs:180-184). -/

/-- State of the WK system.  `deadErrs` lists, in death order, the `Err`
payloads of worker threads that have returned early; these are read when
the router joins the workers.  `exited` records that the loop's shutdown
check fired (workers.rs:178); the run's result `done` is produced only
after the joins (workers.rs:180-192), during which workers may still act.
Ghost counters as in `MRState`. -/
structure WKState (V J E : Type) where
  pending : Nat
  force : Bool
  graceful : Bool
  carry : Option J
  exited : Bool
  done : Option (Except E (Option J))
  shutdownQ : Nat
  workerOutQ : List J
  workerInQ : List (WTask V J)
  inputQ : List V
  alive : Nat
  deadErrs : List E
  issued : Nat
  completed : Nat
  deadTasks : Nat

/-- The value the WK router returns once the loop exits
(workers.rs:179-192): the first `Err` among the joined worker results if
there is one (`result?` at workers.rs:183), otherwise the carry, `Null`
(modelled `none`) when absent. -/
def wkFinale {J E : Type} (deadErrs : List E) (carry : Option J) :
    Except E (Option J) :=
  match deadErrs with
  | [] => Except.ok carry
  | e :: _ => Except.error e

/-- The shutdown check ending every WK router iteration (workers.rs:178),
identical in form to the MR one (mapreduce.rs:211).  It only exits the
loop; the result is produced after the joins (`wkFinale`). -/
def wkCheck {V J E : Type} (s : WKState V J E) : WKState V J E :=
  if s.force = true ∨ (s.graceful = true ∧ s.pending = 0) then
    { s with exited := true }
  else
    s

/-- WK handling of a received input vertex (workers.rs:147-154): dispatch
`Map(vertex)`; `pending_tasks` is incremented only if the send succeeded. -/
def wkHandleVertex {V J E : Type} (v : V) (s : WKState V J E) : WKState V J E :=
  if 0 < s.alive then
    wkCheck { s with workerInQ := s.workerInQ ++ [WTask.map v],
                     issued := s.issued + 1, pending := s.pending + 1 }
  else
    wkCheck { s with force := true }

/-- WK handling of a received worker output (workers.rs:155-169):
`pending_tasks -= 1`; with a carry, dispatch `Reduce(carry, value)`,
incrementing `pending_tasks` only if the send succeeded, and clear the
carry; without one, the value becomes the carry. -/
def wkHandleOutput {V J E : Type} (v : J) (s : WKState V J E) : WKState V J E :=
  match s.carry with
  | some c =>
      if 0 < s.alive then
        wkCheck { s with pending := (s.pending - 1) + 1,
                         completed := s.completed + 1,
                         workerInQ := s.workerInQ ++ [WTask.reduce c v],
                         issued := s.issued + 1, carry := none }
      else
        wkCheck { s with pending := s.pending - 1,
                         completed := s.completed + 1,
                         force := true, carry := none }
  | none =>
      wkCheck { s with pending := s.pending - 1, completed := s.completed + 1,
                       carry := some v }

/-- Small-step transition relation of the WK system.  `select_loop!` has no
priority, so every ready source gives an enabled step. -/
inductive WKStep {V J E : Type} (fMap : V → Except E J) (fRed : J → J → Except E J) :
    WKState V J E → WKState V J E → Prop where
  /-- Router iteration receiving an input vertex (workers.rs:147-154). -/
  | vertex {s : WKState V J E} {v : V} {rest : List V} :
      s.exited = false → s.inputQ = v :: rest →
      WKStep fMap fRed s (wkHandleVertex v { s with inputQ := rest })
  /-- Router iteration receiving a worker output (workers.rs:155-170). -/
  | output {s : WKState V J E} {v : J} {rest : List J} :
      s.exited = false → s.workerOutQ = v :: rest →
      WKStep fMap fRed s (wkHandleOutput v { s with workerOutQ := rest })
  /-- Router iteration receiving the shutdown signal (workers.rs:171-173). -/
  | shutdown {s : WKState V J E} :
      s.exited = false → 0 < s.shutdownQ →
      WKStep fMap fRed s
        (wkCheck { s with shutdownQ := s.shutdownQ - 1, graceful := true })
  /-- Router iteration in which the select times out (workers.rs:174): only
  the shutdown check runs. -/
  | timeout {s : WKState V J E} :
      s.exited = false → WKStep fMap fRed s (wkCheck s)
  /-- After the loop has exited and the joins have completed, the run's
  result is produced (workers.rs:180-192): the first worker `Err` if any
  thread failed, otherwise the carry (null when absent). -/
  | joinFinish {s : WKState V J E} :
      s.exited = true → s.done = none →
      WKStep fMap fRed s
        { s with done := some (wkFinale s.deadErrs s.carry) }
  /-- A live worker executes a queued task successfully (workers.rs:70-81).
  Workers run until joined, i.e. until the result exists. -/
  | workOk {s : WKState V J E} {i : Nat} {t : WTask V J} {j : J} :
      s.done = none → s.workerInQ.get? i = some t → 0 < s.alive →
      evalTask fMap fRed t = Except.ok j →
      WKStep fMap fRed s
        { s with workerInQ := s.workerInQ.eraseIdx i,
                 workerOutQ := s.workerOutQ ++ [j] }
  /-- A live worker takes a queued task, the call fails, and the worker
  thread returns `Err` (the `?` at workers.rs:79). -/
  | workErr {s : WKState V J E} {i : Nat} {t : WTask V J} {e : E} :
      s.done = none → s.workerInQ.get? i = some t → 0 < s.alive →
      evalTask fMap fRed t = Except.error e →
      WKStep fMap fRed s
        { s with workerInQ := s.workerInQ.eraseIdx i,
                 deadErrs := s.deadErrs ++ [e], alive := s.alive - 1,
                 deadTasks := s.deadTasks + 1 }
  /-- A worker fails before processing any task (setup, workers.rs:64-67)
  and its thread returns `Err`. -/
  | setupFail {s : WKState V J E} (e : E) :
      s.done = none → 0 < s.alive →
      WKStep fMap fRed s
        { s with deadErrs := s.deadErrs ++ [e], alive := s.alive - 1 }
  /-- The facade sends the shutdown signal (workers.rs:212). -/
  | signalShutdown {s : WKState V J E} :
      WKStep fMap fRed s { s with shutdownQ := s.shutdownQ + 1 }

/-- Reachability in the WK system. -/
def WKReach {V J E : Type} (fMap : V → Except E J) (fRed : J → J → Except E J)
    (a b : WKState V J E) : Prop :=
  Relation.ReflTransGen (WKStep fMap fRed) a b

/-- Initial state of a WK run (workers.rs:117-143). -/
def wkInit {V J E : Type} (inputs : List V) (n : Nat) : WKState V J E :=
  { pending := 0, force := false, graceful := false, carry := none,
    exited := false, done := none, shutdownQ := 0, workerOutQ := [],
    workerInQ := [], inputQ := inputs, alive := n, deadErrs := [],
    issued := 0, completed := 0, deadTasks := 0 }

/-! ## Worker body (for C10)

The worker thread body, for both drafts: synchronous setup — create the
lua context, evaluate the script to a table, extract the `map` and then the
`reduce` callable — followed by the task loop.  The scripting boundary is
abstracted: each setup stage is an `Except`, and the extracted callables
are functions into `Except`. -/

/-- Outcome of each stage of the scripting boundary for one worker:
`context::create` (mapreduce.rs:47 / workers.rs:64), `l.exec`
(mapreduce.rs:56 / workers.rs:65), `table.get("map")` (mapreduce.rs:65 /
workers.rs:66), `table.get("reduce")` (mapreduce.rs:74 / workers.rs:67). -/
structure LuaEnv (V J E : Type) where
  createCtx : Except E Unit
  evalScript : Except E Unit
  getMap : Except E (V → Except E J)
  getReduce : Except E (J → J → Except E J)

/-- The MR draft's error taxonomy (`MapReduceError`, used at
mapreduce.rs:48, 57, 66, 75, 89, 96). -/
inductive MRError (E : Type) where
  | workerSetup (description : String) (cause : E)
  | mapCall (cause : E)
  | reduceCall (cause : E)
deriving DecidableEq

/-- MR worker setup (mapreduce.rs:46-80): the four stages run in order,
each failure becoming a `WorkerSetup` error that ends the worker before
any task is processed. -/
def mrWorkerSetup {V J E : Type} (env : LuaEnv V J E) :
    Except (MRError E) ((V → Except E J) × (J → J → Except E J)) :=
  match env.createCtx with
  | Except.error e =>
      Except.error (MRError.workerSetup
        "Error occurred trying to to create a lua context" e)
  | Except.ok _ =>
  match env.evalScript with
  | Except.error e =>
      Except.error (MRError.workerSetup
        "Error occurred trying to get a table from the mapreduce script" e)
  | Except.ok _ =>
  match env.getMap with
  | Except.error e =>
      Except.error (MRError.workerSetup
        "Error occurred trying to get the `map` function from the returned table" e)
  | Except.ok m =>
  match env.getReduce with
  | Except.error e =>
      Except.error (MRError.workerSetup
        "Error occurred trying to get the `reduce` function from the returned table" e)
  | Except.ok r => Except.ok (m, r)

/-- The MR worker's task loop on a given task sequence (mapreduce.rs:82-113
without the shutdown/timeout arms, which do not produce values): each task
yields an output; the first failing call sends a `MapCall`/`ReduceCall`
error and ends the worker. -/
def mrWorkerLoop {V J E : Type} (m : V → Except E J) (r : J → J → Except E J) :
    List (WTask V J) → List (MRError E) × List J
  | [] => ([], [])
  | t :: rest =>
      match t with
      | WTask.map v =>
          (match m v with
           | Except.error e => ([MRError.mapCall e], [])
           | Except.ok j =>
               let p := mrWorkerLoop m r rest
               (p.1, j :: p.2))
      | WTask.reduce a b =>
          (match r a b with
           | Except.error e => ([MRError.reduceCall e], [])
           | Except.ok j =>
               let p := mrWorkerLoop m r rest
               (p.1, j :: p.2))

/-- A whole MR worker run (mapreduce.rs:43-114): setup, then the task loop.
Returns the errors the worker sent on the error channel and the values it
sent on the output channel. -/
def mrWorkerRun {V J E : Type} (env : LuaEnv V J E) (tasks : List (WTask V J)) :
    List (MRError E) × List J :=
  match mrWorkerSetup env with
  | Except.error e => ([e], [])
  | Except.ok (m, r) => mrWorkerLoop m r tasks

/-- A whole WK worker run (workers.rs:62-93): setup stages chained with `?`
(workers.rs:64-67), then the task loop; the thread result is `Err` of the
first failure.  Returns the thread result paired with the outputs sent. -/
def wkWorkerRun {V J E : Type} (env : LuaEnv V J E) (tasks : List (WTask V J)) :
    Except E Unit × List J :=
  match env.createCtx with
  | Except.error e => (Except.error e, [])
  | Except.ok _ =>
  match env.evalScript with
  | Except.error e => (Except.error e, [])
  | Except.ok _ =>
  match env.getMap with
  | Except.error e => (Except.error e, [])
  | Except.ok m =>
  match env.getReduce with
  | Except.error e => (Except.error e, [])
  | Except.ok r =>
    (wkWorkerLoopAux m r tasks)
where
  /-- The WK task loop (workers.rs:69-92): the first failing call makes the
  thread return `Err` (the `?` at workers.rs:79). -/
  wkWorkerLoopAux (m : V → Except E J) (r : J → J → Except E J) :
      List (WTask V J) → Except E Unit × List J
  | [] => (Except.ok (), [])
  | t :: rest =>
      match evalTask m r t with
      | Except.error e => (Except.error e, [])
      | Except.ok j =>
          let p := wkWorkerLoopAux m r rest
          (p.1, j :: p.2)

/-! ## Invariants

Bookkeeping functions and invariant statements used by the theorems.
These are proof ingredients, not translations of source code. -/

/-- 0 for `none`, 1 for `some`. -/
def optCount {α : Type} : Option α → Nat
  | none => 0
  | some _ => 1

/-- Number of values the system still owes the fold: queued vertices and
tasks each eventually yield one value; queued outputs, the carry, and a
pending dispatch each hold one. -/
def mrCount {V J E : Type} (s : MRState V J E) : Nat :=
  s.inputQ.length + s.workerInQ.length + s.workerOutQ.length +
    optCount s.carry + optCount s.rpc

/-- The integer a task will eventually contribute when `map` is the pure
function `f` and `reduce` is integer addition. -/
def taskSum {V : Type} (f : V → Int) : WTask V Int → Int
  | WTask.map v => f v
  | WTask.reduce a b => a + b

/-- The part of a pending dispatch's eventual value not already counted
elsewhere: for a pending `Reduce(a, b)` the first argument is still the
carry, so only `b` counts here. -/
def rpcContrib {V : Type} (f : V → Int) : Option (PendAct V Int) → Int
  | none => 0
  | some (PendAct.map v) => f v
  | some (PendAct.red _ b) => b

/-- The integer held by the carry, 0 when empty. -/
def carrySum : Option Int → Int
  | none => 0
  | some j => j

/-- A pure, total `map` user function (the premise of P3/P5). -/
def pureMap {V : Type} (f : V → Int) : V → Except Empty Int :=
  fun v => Except.ok (f v)

/-- Integer addition as the `reduce` user function (the premise of P3). -/
def addRed : Int → Int → Except Empty Int :=
  fun a b => Except.ok (a + b)

/-- Core invariant of the MR system, for a run started with `n0` workers
and `len0` submitted vertices.  Holds in every reachable state when
`1 ≤ n0`. -/
structure MRCoreInv {V J E : Type} (n0 len0 : Nat) (s : MRState V J E) : Prop where
  /-- Workers deposit exactly one error each before dying. -/
  errCount : s.errorQ.length + s.alive = n0
  /-- Every successful send is a task now queued, already turned into an
  output (consumed or not), or lost with a dead worker. -/
  acct : s.issued =
    s.workerInQ.length + s.workerOutQ.length + s.completed + s.deadTasks
  /-- Until a dispatch fails, `pending_tasks` balances issued against
  consumed. -/
  bal : s.force = false → s.pending + s.completed = s.issued
  /-- A graceful result was produced under the graceful predicate and
  returns the carry. -/
  doneOk : ∀ c, s.done = some (ROutcome.ok c) →
    s.force = false ∧ s.graceful = true ∧ s.pending = 0 ∧ s.carry = c
  /-- Once `should_force_shutdown` is set, the loop has returned the first
  queued error. -/
  doneErr : s.force = true →
    ∃ e, s.errorQ.head? = some e ∧ s.done = some (ROutcome.err e)
  /-- No iteration is left half-done once the router returned. -/
  rpcNone : s.done ≠ none → s.rpc = none
  /-- A pending `Reduce` dispatch's first argument is the current carry. -/
  rpcCarry : ∀ a b, s.rpc = some (PendAct.red a b) → s.carry = some a
  /-- The value count never exceeds the number of submitted vertices. -/
  cntLe : mrCount s ≤ len0

/-- Dataflow invariant of an MR run whose user functions are a pure map
`f` and integer addition (so worker calls cannot fail: `E = Empty`). -/
structure MRSumInv {V : Type} (f : V → Int) (inputs0 : List V) (n0 : Nat)
    (s : MRState V Int Empty) : Prop where
  /-- No worker can die. -/
  aliveEq : s.alive = n0
  /-- No error exists, so force shutdown is impossible. -/
  noForce : s.force = false
  /-- Conservation: everything still owed plus everything held sums to the
  total of `f` over the submitted vertices. -/
  sumEq : (s.inputQ.map f).sum + (s.workerInQ.map (taskSum f)).sum +
      s.workerOutQ.sum + carrySum s.carry + rpcContrib f s.rpc =
      (inputs0.map f).sum
  /-- With at least one vertex submitted, at least one value survives. -/
  cntPos : inputs0 ≠ [] → 1 ≤ mrCount s
  /-- Every submitted vertex is still queued, mid-dispatch, or counted by
  `mapIssued`. -/
  mapAcct : s.mapIssued + s.inputQ.length +
      (match s.rpc with | some (PendAct.map _) => 1 | _ => 0) =
      inputs0.length
  /-- With at most one vertex, no `Reduce` is ever issued. -/
  redZero : inputs0.length ≤ 1 → s.redIssued = 0
  /-- With at most one vertex, no `Reduce` dispatch is ever pending. -/
  noRedRpc : inputs0.length ≤ 1 → ∀ a b, s.rpc ≠ some (PendAct.red a b)

/-- Core invariant of the WK system for a run started with `n0` workers.
Holds in every reachable state when `1 ≤ n0`. -/
structure WKCoreInv {V J E : Type} (n0 : Nat) (s : WKState V J E) : Prop where
  /-- Every dead worker thread left exactly one `Err` result. -/
  errCount : s.deadErrs.length + s.alive = n0
  /-- As in MR. -/
  acct : s.issued =
    s.workerInQ.length + s.workerOutQ.length + s.completed + s.deadTasks
  /-- In WK the balance is unconditional: a failed dispatch increments
  nothing. -/
  bal : s.pending + s.completed = s.issued
  /-- Force shutdown needs all workers dead, hence at least one `Err`. -/
  forceDead : s.force = true → s.deadErrs ≠ []
  /-- The loop only exits under its termination predicate. -/
  exitedPred : s.exited = true →
    s.force = true ∨ (s.graceful = true ∧ s.pending = 0)
  /-- The loop has exited before any result exists. -/
  doneExited : s.done ≠ none → s.exited = true
  /-- The result is the joins' verdict over the dead workers' errors and
  the carry. -/
  doneVal : ∀ r, s.done = some r → r = wkFinale s.deadErrs s.carry

/-! ## Concrete runs

Explicit states reached by particular schedules, used to witness or refute
claims on concrete inputs. -/

/-- Final state of an MR run with one submitted vertex and one worker in
which the router observes the facade's shutdown signal before polling the
input channel: the vertex is still queued, no Map task was ever issued,
and the run returned `Ok(Null)`. -/
def mrDropFinal : MRState Unit Int Empty :=
  { progress := 0, pending := 0, reportNum := 0, force := false,
    graceful := true, carry := none, rpc := none,
    done := some (ROutcome.ok none), errorQ := [], shutdownQ := 0,
    reportQ := 0, workerOutQ := [], workerInQ := [], inputQ := [()],
    alive := 1, issued := 0, completed := 0, mapIssued := 0,
    redIssued := 0, deadTasks := 0 }

/-- Final state of a fully successful MR run with one submitted vertex,
one worker, map = `fun _ => 2`, reduce = integer addition: the single map
output became the carry and the run returned it. -/
def mrGoodFinal : MRState Unit Int Empty :=
  { progress := 1, pending := 0, reportNum := 0, force := false,
    graceful := true, carry := some 2, rpc := none,
    done := some (ROutcome.ok (some 2)), errorQ := [], shutdownQ := 0,
    reportQ := 0, workerOutQ := [], workerInQ := [], inputQ := [],
    alive := 1, issued := 1, completed := 1, mapIssued := 1,
    redIssued := 0, deadTasks := 0 }

/-- Final state of an MR run with one submitted vertex and one worker in
which the worker dies during setup after the router has chosen to dispatch
the vertex: the `Map` send fails, `should_force_shutdown` is set, and
`pending_tasks`/`progress` are nevertheless incremented
(mapreduce.rs:202-207) although nothing was issued. -/
def mrSendFailFinal : MRState Unit Int Unit :=
  { progress := 1, pending := 1, reportNum := 0, force := true,
    graceful := false, carry := none, rpc := none,
    done := some (ROutcome.err ()), errorQ := [()], shutdownQ := 0,
    reportQ := 0, workerOutQ := [], workerInQ := [], inputQ := [],
    alive := 0, issued := 0, completed := 0, mapIssued := 0,
    redIssued := 0, deadTasks := 0 }

/-- A map user function failing on vertex `3` only. -/
def c4map : Nat → Except Nat Int :=
  fun n => if n = 3 then Except.error 7 else Except.ok (n : Int)

/-- Integer addition as a `reduce` user function over `Except Nat`. -/
def c4red : Int → Int → Except Nat Int :=
  fun a b => Except.ok (a + b)

/-- Final state of an MR run with vertices `[1, 2, 3]` and two workers in
which `map` fails on vertex 3 and the second worker fails setup while a
`Reduce(1, 2)` dispatch is in flight: the Reduce send fails, both consumed
values are discarded (carry cleared, no Reduce task ever issued), and the
run returns the first error. -/
def mrRedDropFinal : MRState Nat Int Nat :=
  { progress := 3, pending := 2, reportNum := 0, force := true,
    graceful := false, carry := none, rpc := none,
    done := some (ROutcome.err 7), errorQ := [7, 9], shutdownQ := 0,
    reportQ := 0, workerOutQ := [], workerInQ := [], inputQ := [],
    alive := 0, issued := 3, completed := 2, mapIssued := 3,
    redIssued := 0, deadTasks := 1 }

/-- Final state of a WK run with no submitted vertices and one worker
whose setup fails: the loop exits gracefully (`pending == 0`) but the
joins surface the worker's `Err`, so the run returns an error rather than
`Ok(Null)`. -/
def wkErrFinal : WKState Unit Int Unit :=
  { pending := 0, force := false, graceful := true, carry := none,
    exited := true, done := some (Except.error ()), shutdownQ := 0,
    workerOutQ := [], workerInQ := [], inputQ := [], alive := 0,
    deadErrs := [()], issued := 0, completed := 0, deadTasks := 0 }

/-- Final state of a WK run with one vertex and one worker whose setup
fails before the dispatch: the `Map` send fails, forcing shutdown, and the
joins surface the worker's error. -/
def wkForceFinal : WKState Unit Int Unit :=
  { pending := 0, force := true, graceful := false, carry := none,
    exited := true, done := some (Except.error ()), shutdownQ := 0,
    workerOutQ := [], workerInQ := [], inputQ := [], alive := 0,
    deadErrs := [()], issued := 0, completed := 0, deadTasks := 0 }

/-! # Theorems -/

/-! ## List helpers -/

theorem list_empty_eq_nil {l : List Empty} : l = [] := by
  cases l with
  | nil => rfl
  | cons h t => exact h.elim

theorem length_eraseIdx_get {α : Type} :
    ∀ (l : List α) (i : Nat) (x : α), l.get? i = some x →
      (l.eraseIdx i).length + 1 = l.length := by
  intro l
  induction l with
  | nil => intro i x h; simp at h
  | cons a t ih =>
      intro i x h
      cases i with
      | zero => simp [List.eraseIdx]
      | succ n =>
          simp only [List.get?_cons_succ] at h
          simp only [List.eraseIdx, List.length_cons]
          rw [← ih n x h]

theorem sum_map_eraseIdx_get {α : Type} (g : α → Int) :
    ∀ (l : List α) (i : Nat) (x : α), l.get? i = some x →
      ((l.eraseIdx i).map g).sum + g x = (l.map g).sum := by
  intro l
  induction l with
  | nil => intro i x h; simp at h
  | cons a t ih =>
      intro i x h
      cases i with
      | zero =>
          simp only [List.get?_cons_zero, Option.some_inj] at h
          subst h
          simp [List.eraseIdx]
          ring
      | succ n =>
          simp only [List.get?_cons_succ] at h
          simp only [List.eraseIdx, List.map_cons, List.sum_cons]
          have := ih n x h
          omega

theorem head?_append_left {α : Type} {l : List α} (l' : List α) {a : α}
    (h : l.head? = some a) : (l ++ l').head? = some a := by
  cases l with
  | nil => simp at h
  | cons x t => simpa using h

/-! ## Frame lemmas: `mrCheck` only ever writes `done`, `wkCheck` only
ever writes `exited` -/

@[simp] theorem mrCheck_progress {V J E : Type} (s : MRState V J E) :
    (mrCheck s).progress = s.progress := by unfold mrCheck; split <;> rfl

@[simp] theorem mrCheck_pending {V J E : Type} (s : MRState V J E) :
    (mrCheck s).pending = s.pending := by unfold mrCheck; split <;> rfl

@[simp] theorem mrCheck_reportNum {V J E : Type} (s : MRState V J E) :
    (mrCheck s).reportNum = s.reportNum := by unfold mrCheck; split <;> rfl

@[simp] theorem mrCheck_force {V J E : Type} (s : MRState V J E) :
    (mrCheck s).force = s.force := by unfold mrCheck; split <;> rfl

@[simp] theorem mrCheck_graceful {V J E : Type} (s : MRState V J E) :
    (mrCheck s).graceful = s.graceful := by unfold mrCheck; split <;> rfl

@[simp] theorem mrCheck_carry {V J E : Type} (s : MRState V J E) :
    (mrCheck s).carry = s.carry := by unfold mrCheck; split <;> rfl

@[simp] theorem mrCheck_rpc {V J E : Type} (s : MRState V J E) :
    (mrCheck s).rpc = s.rpc := by unfold mrCheck; split <;> rfl

@[simp] theorem mrCheck_errorQ {V J E : Type} (s : MRState V J E) :
    (mrCheck s).errorQ = s.errorQ := by unfold mrCheck; split <;> rfl

@[simp] theorem mrCheck_shutdownQ {V J E : Type} (s : MRState V J E) :
    (mrCheck s).shutdownQ = s.shutdownQ := by unfold mrCheck; split <;> rfl

@[simp] theorem mrCheck_reportQ {V J E : Type} (s : MRState V J E) :
    (mrCheck s).reportQ = s.reportQ := by unfold mrCheck; split <;> rfl

@[simp] theorem mrCheck_workerOutQ {V J E : Type} (s : MRState V J E) :
    (mrCheck s).workerOutQ = s.workerOutQ := by unfold mrCheck; split <;> rfl

@[simp] theorem mrCheck_workerInQ {V J E : Type} (s : MRState V J E) :
    (mrCheck s).workerInQ = s.workerInQ := by unfold mrCheck; split <;> rfl

@[simp] theorem mrCheck_inputQ {V J E : Type} (s : MRState V J E) :
    (mrCheck s).inputQ = s.inputQ := by unfold mrCheck; split <;> rfl

@[simp] theorem mrCheck_alive {V J E : Type} (s : MRState V J E) :
    (mrCheck s).alive = s.alive := by unfold mrCheck; split <;> rfl

@[simp] theorem mrCheck_issued {V J E : Type} (s : MRState V J E) :
    (mrCheck s).issued = s.issued := by unfold mrCheck; split <;> rfl

@[simp] theorem mrCheck_completed {V J E : Type} (s : MRState V J E) :
    (mrCheck s).completed = s.completed := by unfold mrCheck; split <;> rfl

@[simp] theorem mrCheck_mapIssued {V J E : Type} (s : MRState V J E) :
    (mrCheck s).mapIssued = s.mapIssued := by unfold mrCheck; split <;> rfl

@[simp] theorem mrCheck_redIssued {V J E : Type} (s : MRState V J E) :
    (mrCheck s).redIssued = s.redIssued := by unfold mrCheck; split <;> rfl

@[simp] theorem mrCheck_deadTasks {V J E : Type} (s : MRState V J E) :
    (mrCheck s).deadTasks = s.deadTasks := by unfold mrCheck; split <;> rfl

theorem mrCheck_done_of_pred {V J E : Type} {s : MRState V J E}
    (h : s.force = true ∨ (s.graceful = true ∧ s.pending = 0)) :
    (mrCheck s).done = some (mrResult s) := by
  unfold mrCheck; rw [if_pos h]

theorem mrCheck_done_of_not {V J E : Type} {s : MRState V J E}
    (h : ¬(s.force = true ∨ (s.graceful = true ∧ s.pending = 0))) :
    (mrCheck s).done = s.done := by
  unfold mrCheck; rw [if_neg h]

theorem mrCount_mrCheck {V J E : Type} (s : MRState V J E) :
    mrCount (mrCheck s) = mrCount s := by
  unfold mrCount; simp

@[simp] theorem wkCheck_pending {V J E : Type} (s : WKState V J E) :
    (wkCheck s).pending = s.pending := by unfold wkCheck; split <;> rfl

@[simp] theorem wkCheck_force {V J E : Type} (s : WKState V J E) :
    (wkCheck s).force = s.force := by unfold wkCheck; split <;> rfl

@[simp] theorem wkCheck_graceful {V J E : Type} (s : WKState V J E) :
    (wkCheck s).graceful = s.graceful := by unfold wkCheck; split <;> rfl

@[simp] theorem wkCheck_carry {V J E : Type} (s : WKState V J E) :
    (wkCheck s).carry = s.carry := by unfold wkCheck; split <;> rfl

@[simp] theorem wkCheck_done {V J E : Type} (s : WKState V J E) :
    (wkCheck s).done = s.done := by unfold wkCheck; split <;> rfl

@[simp] theorem wkCheck_shutdownQ {V J E : Type} (s : WKState V J E) :
    (wkCheck s).shutdownQ = s.shutdownQ := by unfold wkCheck; split <;> rfl

@[simp] theorem wkCheck_workerOutQ {V J E : Type} (s : WKState V J E) :
    (wkCheck s).workerOutQ = s.workerOutQ := by unfold wkCheck; split <;> rfl

@[simp] theorem wkCheck_workerInQ {V J E : Type} (s : WKState V J E) :
    (wkCheck s).workerInQ = s.workerInQ := by unfold wkCheck; split <;> rfl

@[simp] theorem wkCheck_inputQ {V J E : Type} (s : WKState V J E) :
    (wkCheck s).inputQ = s.inputQ := by unfold wkCheck; split <;> rfl

@[simp] theorem wkCheck_alive {V J E : Type} (s : WKState V J E) :
    (wkCheck s).alive = s.alive := by unfold wkCheck; split <;> rfl

@[simp] theorem wkCheck_deadErrs {V J E : Type} (s : WKState V J E) :
    (wkCheck s).deadErrs = s.deadErrs := by unfold wkCheck; split <;> rfl

@[simp] theorem wkCheck_issued {V J E : Type} (s : WKState V J E) :
    (wkCheck s).issued = s.issued := by unfold wkCheck; split <;> rfl

@[simp] theorem wkCheck_completed {V J E : Type} (s : WKState V J E) :
    (wkCheck s).completed = s.completed := by unfold wkCheck; split <;> rfl

@[simp] theorem wkCheck_deadTasks {V J E : Type} (s : WKState V J E) :
    (wkCheck s).deadTasks = s.deadTasks := by unfold wkCheck; split <;> rfl

theorem wkCheck_exited_of_pred {V J E : Type} {s : WKState V J E}
    (h : s.force = true ∨ (s.graceful = true ∧ s.pending = 0)) :
    (wkCheck s).exited = true := by
  unfold wkCheck; rw [if_pos h]

theorem wkCheck_exited_of_not {V J E : Type} {s : WKState V J E}
    (h : ¬(s.force = true ∨ (s.graceful = true ∧ s.pending = 0))) :
    (wkCheck s).exited = s.exited := by
  unfold wkCheck; rw [if_neg h]

/-! ## Branch equations for the MR router iteration -/

theorem mrIterA_err {V J E : Type} {s : MRState V J E} {e : E} {es : List E}
    (h : s.errorQ = e :: es) :
    mrIterA s = mrCheck { s with force := true } := by
  unfold mrIterA; rw [h]

theorem mrIterA_sd {V J E : Type} {s : MRState V J E} {n : Nat}
    (h1 : s.errorQ = []) (h2 : s.shutdownQ = n + 1) :
    mrIterA s = mrCheck { s with shutdownQ := n, graceful := true } := by
  unfold mrIterA; rw [h1, h2]

theorem mrIterA_rep {V J E : Type} {s : MRState V J E} {n : Nat}
    (h1 : s.errorQ = []) (h2 : s.shutdownQ = 0) (h3 : s.reportQ = n + 1) :
    mrIterA s = mrCheck { s with reportQ := n, reportNum := s.reportNum + 1 } := by
  unfold mrIterA; rw [h1, h2, h3]

theorem mrIterA_outCarry {V J E : Type} {s : MRState V J E} {v : J}
    {rest : List J} {c : J}
    (h1 : s.errorQ = []) (h2 : s.shutdownQ = 0) (h3 : s.reportQ = 0)
    (h4 : s.workerOutQ = v :: rest) (h5 : s.carry = some c) :
    mrIterA s = { s with workerOutQ := rest, pending := s.pending - 1,
                         completed := s.completed + 1,
                         rpc := some (PendAct.red c v) } := by
  unfold mrIterA; rw [h1, h2, h3, h4, h5]

theorem mrIterA_outNone {V J E : Type} {s : MRState V J E} {v : J}
    {rest : List J}
    (h1 : s.errorQ = []) (h2 : s.shutdownQ = 0) (h3 : s.reportQ = 0)
    (h4 : s.workerOutQ = v :: rest) (h5 : s.carry = none) :
    mrIterA s = mrCheck { s with workerOutQ := rest,
                                 pending := s.pending - 1,
                                 completed := s.completed + 1,
                                 carry := some v } := by
  unfold mrIterA; rw [h1, h2, h3, h4, h5]

theorem mrIterA_in {V J E : Type} {s : MRState V J E} {v : V} {rest : List V}
    (h1 : s.errorQ = []) (h2 : s.shutdownQ = 0) (h3 : s.reportQ = 0)
    (h4 : s.workerOutQ = []) (h5 : s.inputQ = v :: rest) :
    mrIterA s = { s with inputQ := rest, rpc := some (PendAct.map v) } := by
  unfold mrIterA; rw [h1, h2, h3, h4, h5]

theorem mrIterA_idle {V J E : Type} {s : MRState V J E}
    (h1 : s.errorQ = []) (h2 : s.shutdownQ = 0) (h3 : s.reportQ = 0)
    (h4 : s.workerOutQ = []) (h5 : s.inputQ = []) :
    mrIterA s = mrCheck s := by
  unfold mrIterA; rw [h1, h2, h3, h4, h5]

theorem mrIterB_map_ok {V J E : Type} {s : MRState V J E} {v : V}
    (h : 0 < s.alive) :
    mrIterB (PendAct.map v) s =
      mrCheck { s with workerInQ := s.workerInQ ++ [WTask.map v],
                       issued := s.issued + 1, mapIssued := s.mapIssued + 1,
                       pending := s.pending + 1, progress := s.progress + 1,
                       rpc := none } := by
  unfold mrIterB; dsimp only; rw [if_pos h]

theorem mrIterB_map_fail {V J E : Type} {s : MRState V J E} {v : V}
    (h : ¬ 0 < s.alive) :
    mrIterB (PendAct.map v) s =
      mrCheck { s with force := true,
                       pending := s.pending + 1, progress := s.progress + 1,
                       rpc := none } := by
  unfold mrIterB; dsimp only; rw [if_neg h]

theorem mrIterB_red_ok {V J E : Type} {s : MRState V J E} {a b : J}
    (h : 0 < s.alive) :
    mrIterB (PendAct.red a b) s =
      mrCheck { s with workerInQ := s.workerInQ ++ [WTask.reduce a b],
                       issued := s.issued + 1, redIssued := s.redIssued + 1,
                       pending := s.pending + 1, carry := none,
                       rpc := none } := by
  unfold mrIterB; dsimp only; rw [if_pos h]

theorem mrIterB_red_fail {V J E : Type} {s : MRState V J E} {a b : J}
    (h : ¬ 0 < s.alive) :
    mrIterB (PendAct.red a b) s =
      mrCheck { s with force := true,
                       pending := s.pending + 1, carry := none,
                       rpc := none } := by
  unfold mrIterB; dsimp only; rw [if_neg h]

/-- While the router has not returned, `should_force_shutdown` is unset:
setting it makes the very same iteration's check return. -/
theorem mrForce_false_of_done_none {V J E : Type} {n0 len0 : Nat}
    {s : MRState V J E} (hs : MRCoreInv n0 len0 s) (h : s.done = none) :
    s.force = false := by
  by_contra hf
  have hf' : s.force = true := by
    cases hv : s.force with
    | false => exact absurd hv hf
    | true => rfl
  obtain ⟨e, _, hd⟩ := hs.doneErr hf'
  rw [h] at hd
  exact Option.noConfusion hd

/-- `mrCheck` on a state with `force` unset produces a result exactly under
the graceful half of the termination predicate, and that result is the
carry. -/
theorem mrCheck_done_graceful {V J E : Type} {s : MRState V J E}
    (hf : s.force = false) (hd : s.done = none) :
    (mrCheck s).done =
      if s.graceful = true ∧ s.pending = 0 then some (ROutcome.ok s.carry)
      else none := by
  by_cases hp : s.graceful = true ∧ s.pending = 0
  · rw [if_pos hp, mrCheck_done_of_pred (Or.inr hp)]
    unfold mrResult
    rw [hf]
    simp
  · rw [if_neg hp, mrCheck_done_of_not ?_]
    · exact hd
    · intro hc
      rcases hc with hc | hc
      · rw [hf] at hc; exact Bool.noConfusion hc
      · exact hp hc

/-- Phase A of a router iteration preserves the MR core invariant. -/
theorem mrCoreInv_iterA {V J E : Type} {n0 len0 : Nat} {s : MRState V J E}
    (hs : MRCoreInv n0 len0 s)
    (hdone : s.done = none) (hrpc : s.rpc = none) :
    MRCoreInv n0 len0 (mrIterA s) := by
  have hforce : s.force = false := mrForce_false_of_done_none hs hdone
  cases hE : s.errorQ with
  | cons e es =>
      rw [mrIterA_err hE]
      have hres : mrResult { s with force := true } = ROutcome.err e := by
        unfold mrResult
        simp [hE]
      have hd : (mrCheck { s with force := true }).done
          = some (ROutcome.err e) := by
        rw [mrCheck_done_of_pred (Or.inl rfl), hres]
      refine ⟨?_, ?_, ?_, ?_, ?_, ?_, ?_, ?_⟩
      · simpa using hs.errCount
      · simpa using hs.acct
      · intro hf; simp at hf
      · intro c hc
        rw [hd] at hc
        simp at hc
      · intro _
        exact ⟨e, by simp [hE], hd⟩
      · intro _
        simpa using hrpc
      · intro a b h
        simp [hrpc] at h
      · rw [mrCount_mrCheck]
        exact hs.cntLe
  | nil =>
  cases hS : s.shutdownQ with
  | succ n =>
      rw [mrIterA_sd hE hS]
      have hdg := mrCheck_done_graceful
        (s := { s with shutdownQ := n, graceful := true }) hforce hdone
      refine ⟨?_, ?_, ?_, ?_, ?_, ?_, ?_, ?_⟩
      · simpa using hs.errCount
      · simpa using hs.acct
      · intro _; simpa using hs.bal hforce
      · intro c hc
        rw [hdg] at hc
        split at hc
        · rename_i hcond
          simp at hc
          refine ⟨by simp [hforce], by simp, by simpa using hcond.2, ?_⟩
          simpa using hc
        · simp at hc
      · intro hf'
        simp [hforce] at hf'
      · intro _
        simpa using hrpc
      · intro a b h
        simp [hrpc] at h
      · rw [mrCount_mrCheck]
        exact hs.cntLe
  | zero =>
  cases hR : s.reportQ with
  | succ n =>
      rw [mrIterA_rep hE hS hR]
      have hdg := mrCheck_done_graceful
        (s := { s with reportQ := n, reportNum := s.reportNum + 1 }) hforce hdone
      refine ⟨?_, ?_, ?_, ?_, ?_, ?_, ?_, ?_⟩
      · simpa using hs.errCount
      · simpa using hs.acct
      · intro _; simpa using hs.bal hforce
      · intro c hc
        rw [hdg] at hc
        split at hc
        · rename_i hcond
          simp at hc
          refine ⟨by simp [hforce], by simpa using hcond.1, by simpa using hcond.2, ?_⟩
          simpa using hc
        · simp at hc
      · intro hf'
        simp [hforce] at hf'
      · intro _
        simpa using hrpc
      · intro a b h
        simp [hrpc] at h
      · rw [mrCount_mrCheck]
        exact hs.cntLe
  | zero =>
  cases hO : s.workerOutQ with
  | cons v rest =>
      have hpend : 1 ≤ s.pending := by
        have hb := hs.bal hforce
        have ha := hs.acct
        rw [hO] at ha
        simp at ha
        omega
      cases hC : s.carry with
      | some c =>
          rw [mrIterA_outCarry hE hS hR hO hC]
          refine ⟨?_, ?_, ?_, ?_, ?_, ?_, ?_, ?_⟩
          · simpa using hs.errCount
          · have := hs.acct
            rw [hO] at this
            simp at this ⊢
            omega
          · intro _
            have := hs.bal hforce
            simp
            omega
          · intro c' hc
            simp [hdone] at hc
          · intro hf'
            simp [hforce] at hf'
          · intro hne
            exact absurd hdone hne
          · intro a b h
            simp at h
            rw [hC]
            simp [h.1]
          · have := hs.cntLe
            unfold mrCount at this ⊢
            simp [hO, hrpc, hC, optCount] at this ⊢
            omega
      | none =>
          rw [mrIterA_outNone hE hS hR hO hC]
          have hdg := mrCheck_done_graceful
            (s := { s with workerOutQ := rest, pending := s.pending - 1,
                           completed := s.completed + 1, carry := some v })
            hforce hdone
          refine ⟨?_, ?_, ?_, ?_, ?_, ?_, ?_, ?_⟩
          · simpa using hs.errCount
          · have := hs.acct
            rw [hO] at this
            simp at this ⊢
            omega
          · intro _
            have := hs.bal hforce
            simp
            omega
          · intro c' hc
            rw [hdg] at hc
            split at hc
            · rename_i hcond
              simp at hc
              refine ⟨by simp [hforce], by simpa using hcond.1,
                      by simpa using hcond.2, ?_⟩
              simpa using hc
            · simp at hc
          · intro hf'
            simp [hforce] at hf'
          · intro _
            simpa using hrpc
          · intro a b h
            simp [hrpc] at h
          · rw [mrCount_mrCheck]
            have := hs.cntLe
            unfold mrCount at this ⊢
            simp [hO, hrpc, hC, optCount] at this ⊢
            omega
  | nil =>
  cases hI : s.inputQ with
  | cons v rest =>
      rw [mrIterA_in hE hS hR hO hI]
      refine ⟨?_, ?_, ?_, ?_, ?_, ?_, ?_, ?_⟩
      · simpa using hs.errCount
      · simpa using hs.acct
      · intro _
        simpa using hs.bal hforce
      · intro c hc
        simp [hdone] at hc
      · intro hf'
        simp [hforce] at hf'
      · intro hne
        exact absurd hdone hne
      · intro a b h
        simp at h
      · have := hs.cntLe
        unfold mrCount at this ⊢
        simp [hI, hrpc, optCount] at this ⊢
        omega
  | nil =>
      rw [mrIterA_idle hE hS hR hO hI]
      have hdg := mrCheck_done_graceful hforce hdone
      refine ⟨?_, ?_, ?_, ?_, ?_, ?_, ?_, ?_⟩
      · simpa using hs.errCount
      · simpa using hs.acct
      · intro _
        simpa using hs.bal hforce
      · intro c hc
        rw [hdg] at hc
        split at hc
        · rename_i hcond
          simp at hc
          refine ⟨by simp [hforce], by simpa using hcond.1, by simpa using hcond.2, ?_⟩
          simpa using hc
        · simp at hc
      · intro hf'
        simp [hforce] at hf'
      · intro _
        simpa using hrpc
      · intro a b h
        simp [hrpc] at h
      · rw [mrCount_mrCheck]
        exact hs.cntLe

/-- Phase B of a router iteration preserves the MR core invariant (with at
least one worker configured). -/
theorem mrCoreInv_iterB {V J E : Type} {n0 len0 : Nat} {s : MRState V J E}
    {a : PendAct V J} (hn : 1 ≤ n0) (hs : MRCoreInv n0 len0 s)
    (hdone : s.done = none) (hrpc : s.rpc = some a) :
    MRCoreInv n0 len0 (mrIterB a s) := by
  have hforce : s.force = false := mrForce_false_of_done_none hs hdone
  have herrNonempty : s.alive = 0 → ∃ e es, s.errorQ = e :: es := by
    intro hz
    have := hs.errCount
    rw [hz] at this
    cases hEQ : s.errorQ with
    | nil => rw [hEQ] at this; simp at this; omega
    | cons e es => exact ⟨e, es, rfl⟩
  cases a with
  | map v =>
      by_cases hal : 0 < s.alive
      · rw [mrIterB_map_ok hal]
        have hdg := mrCheck_done_graceful
          (s := { s with workerInQ := s.workerInQ ++ [WTask.map v],
                         issued := s.issued + 1, mapIssued := s.mapIssued + 1,
                         pending := s.pending + 1, progress := s.progress + 1,
                         rpc := none }) hforce hdone
        refine ⟨?_, ?_, ?_, ?_, ?_, ?_, ?_, ?_⟩
        · simpa using hs.errCount
        · have := hs.acct
          simp
          omega
        · intro _
          have := hs.bal hforce
          simp
          omega
        · intro c hc
          rw [hdg] at hc
          split at hc
          · rename_i hcond
            simp at hcond
          · simp at hc
        · intro hf'
          simp [hforce] at hf'
        · intro _
          simp
        · intro x y h
          simp at h
        · have := hs.cntLe
          rw [mrCount_mrCheck]
          unfold mrCount at this ⊢
          simp [hrpc, optCount] at this ⊢
          omega
      · rw [mrIterB_map_fail hal]
        have hz : s.alive = 0 := by omega
        obtain ⟨e, es, hEQ⟩ := herrNonempty hz
        have hres : mrResult { s with force := true,
                                      pending := s.pending + 1,
                                      progress := s.progress + 1,
                                      rpc := none } = ROutcome.err e := by
          unfold mrResult
          simp [hEQ]
        have hd : (mrCheck { s with force := true,
                                    pending := s.pending + 1,
                                    progress := s.progress + 1,
                                    rpc := none }).done
            = some (ROutcome.err e) := by
          rw [mrCheck_done_of_pred (Or.inl rfl), hres]
        refine ⟨?_, ?_, ?_, ?_, ?_, ?_, ?_, ?_⟩
        · simpa using hs.errCount
        · simpa using hs.acct
        · intro hf; simp at hf
        · intro c hc
          rw [hd] at hc
          simp at hc
        · intro _
          exact ⟨e, by simp [hEQ], hd⟩
        · intro _
          simp
        · intro x y h
          simp at h
        · have := hs.cntLe
          rw [mrCount_mrCheck]
          unfold mrCount at this ⊢
          simp [hrpc, optCount] at this ⊢
          omega
  | red x y =>
      have hcarry : s.carry = some x := hs.rpcCarry x y hrpc
      by_cases hal : 0 < s.alive
      · rw [mrIterB_red_ok hal]
        have hdg := mrCheck_done_graceful
          (s := { s with workerInQ := s.workerInQ ++ [WTask.reduce x y],
                         issued := s.issued + 1, redIssued := s.redIssued + 1,
                         pending := s.pending + 1, carry := none,
                         rpc := none }) hforce hdone
        refine ⟨?_, ?_, ?_, ?_, ?_, ?_, ?_, ?_⟩
        · simpa using hs.errCount
        · have := hs.acct
          simp
          omega
        · intro _
          have := hs.bal hforce
          simp
          omega
        · intro c hc
          rw [hdg] at hc
          split at hc
          · rename_i hcond
            simp at hcond
          · simp at hc
        · intro hf'
          simp [hforce] at hf'
        · intro _
          simp
        · intro a b h
          simp at h
        · have := hs.cntLe
          rw [mrCount_mrCheck]
          unfold mrCount at this ⊢
          simp [hrpc, hcarry, optCount] at this ⊢
          omega
      · rw [mrIterB_red_fail hal]
        have hz : s.alive = 0 := by omega
        obtain ⟨e, es, hEQ⟩ := herrNonempty hz
        have hres : mrResult { s with force := true,
                                      pending := s.pending + 1,
                                      carry := none,
                                      rpc := none } = ROutcome.err e := by
          unfold mrResult
          simp [hEQ]
        have hd : (mrCheck { s with force := true,
                                    pending := s.pending + 1,
                                    carry := none,
                                    rpc := none }).done
            = some (ROutcome.err e) := by
          rw [mrCheck_done_of_pred (Or.inl rfl), hres]
        refine ⟨?_, ?_, ?_, ?_, ?_, ?_, ?_, ?_⟩
        · simpa using hs.errCount
        · simpa using hs.acct
        · intro hf; simp at hf
        · intro c hc
          rw [hd] at hc
          simp at hc
        · intro _
          exact ⟨e, by simp [hEQ], hd⟩
        · intro _
          simp
        · intro a b h
          simp at h
        · have := hs.cntLe
          rw [mrCount_mrCheck]
          unfold mrCount at this ⊢
          simp [hrpc, hcarry, optCount] at this ⊢
          omega

/-- Every MR step preserves the core invariant (with at least one worker
configured). -/
theorem mrCoreInv_step {V J E : Type} {fMap : V → Except E J}
    {fRed : J → J → Except E J} {n0 len0 : Nat} {s s' : MRState V J E}
    (hn : 1 ≤ n0) (hs : MRCoreInv n0 len0 s) (hstep : MRStep fMap fRed s s') :
    MRCoreInv n0 len0 s' := by
  cases hstep with
  | routerA hdone hrpc => exact mrCoreInv_iterA hs hdone hrpc
  | routerB hdone hrpc => exact mrCoreInv_iterB hn hs hdone hrpc
  | workOk hget halive heval =>
      rename_i i t j
      have hlen := length_eraseIdx_get _ i t hget
      refine ⟨?_, ?_, ?_, ?_, ?_, ?_, ?_, ?_⟩
      · simpa using hs.errCount
      · have := hs.acct
        simp at this ⊢
        omega
      · intro hf
        simpa using hs.bal (by simpa using hf)
      · intro c hc
        have := hs.doneOk c (by simpa using hc)
        simpa using this
      · intro hf
        obtain ⟨e0, h1, h2⟩ := hs.doneErr (by simpa using hf)
        exact ⟨e0, by simpa using h1, by simpa using h2⟩
      · intro h
        simpa using hs.rpcNone (by simpa using h)
      · intro a b h
        simpa using hs.rpcCarry a b (by simpa using h)
      · have := hs.cntLe
        unfold mrCount at this ⊢
        simp at this ⊢
        omega
  | workErr hget halive heval =>
      rename_i i t e
      have hlen := length_eraseIdx_get _ i t hget
      refine ⟨?_, ?_, ?_, ?_, ?_, ?_, ?_, ?_⟩
      · have := hs.errCount
        simp
        omega
      · have := hs.acct
        simp at this ⊢
        omega
      · intro hf
        simpa using hs.bal (by simpa using hf)
      · intro c hc
        have := hs.doneOk c (by simpa using hc)
        simpa using this
      · intro hf
        obtain ⟨e0, h1, h2⟩ := hs.doneErr (by simpa using hf)
        refine ⟨e0, ?_, by simpa using h2⟩
        show (s.errorQ ++ [e]).head? = some e0
        exact head?_append_left _ h1
      · intro h
        simpa using hs.rpcNone (by simpa using h)
      · intro a b h
        simpa using hs.rpcCarry a b (by simpa using h)
      · have := hs.cntLe
        unfold mrCount at this ⊢
        simp at this ⊢
        omega
  | setupFail e halive =>
      refine ⟨?_, ?_, ?_, ?_, ?_, ?_, ?_, ?_⟩
      · have := hs.errCount
        simp
        omega
      · simpa using hs.acct
      · intro hf
        simpa using hs.bal (by simpa using hf)
      · intro c hc
        have := hs.doneOk c (by simpa using hc)
        simpa using this
      · intro hf
        obtain ⟨e0, h1, h2⟩ := hs.doneErr (by simpa using hf)
        refine ⟨e0, ?_, by simpa using h2⟩
        show (s.errorQ ++ [e]).head? = some e0
        exact head?_append_left _ h1
      · intro h
        simpa using hs.rpcNone (by simpa using h)
      · intro a b h
        simpa using hs.rpcCarry a b (by simpa using h)
      · have := hs.cntLe
        unfold mrCount at this ⊢
        simp at this ⊢
        omega
  | signalShutdown =>
      refine ⟨?_, ?_, ?_, ?_, ?_, ?_, ?_, ?_⟩
      · simpa using hs.errCount
      · simpa using hs.acct
      · intro hf
        simpa using hs.bal (by simpa using hf)
      · intro c hc
        have := hs.doneOk c (by simpa using hc)
        simpa using this
      · intro hf
        obtain ⟨e0, h1, h2⟩ := hs.doneErr (by simpa using hf)
        exact ⟨e0, by simpa using h1, by simpa using h2⟩
      · intro h
        simpa using hs.rpcNone (by simpa using h)
      · intro a b h
        simpa using hs.rpcCarry a b (by simpa using h)
      · have := hs.cntLe
        unfold mrCount at this ⊢
        simpa using this
  | stealShutdown h =>
      refine ⟨?_, ?_, ?_, ?_, ?_, ?_, ?_, ?_⟩
      · simpa using hs.errCount
      · simpa using hs.acct
      · intro hf
        simpa using hs.bal (by simpa using hf)
      · intro c hc
        have := hs.doneOk c (by simpa using hc)
        simpa using this
      · intro hf
        obtain ⟨e0, h1, h2⟩ := hs.doneErr (by simpa using hf)
        exact ⟨e0, by simpa using h1, by simpa using h2⟩
      · intro h'
        simpa using hs.rpcNone (by simpa using h')
      · intro a b h'
        simpa using hs.rpcCarry a b (by simpa using h')
      · have := hs.cntLe
        unfold mrCount at this ⊢
        simpa using this
  | tick =>
      refine ⟨?_, ?_, ?_, ?_, ?_, ?_, ?_, ?_⟩
      · simpa using hs.errCount
      · simpa using hs.acct
      · intro hf
        simpa using hs.bal (by simpa using hf)
      · intro c hc
        have := hs.doneOk c (by simpa using hc)
        simpa using this
      · intro hf
        obtain ⟨e0, h1, h2⟩ := hs.doneErr (by simpa using hf)
        exact ⟨e0, by simpa using h1, by simpa using h2⟩
      · intro h
        simpa using hs.rpcNone (by simpa using h)
      · intro a b h
        simpa using hs.rpcCarry a b (by simpa using h)
      · have := hs.cntLe
        unfold mrCount at this ⊢
        simpa using this

/-- The initial MR state satisfies the core invariant. -/
theorem mrCoreInv_init {V J E : Type} (inputs : List V) (n0 : Nat) :
    MRCoreInv n0 inputs.length (mrInit (J := J) (E := E) inputs n0) := by
  refine ⟨?_, ?_, ?_, ?_, ?_, ?_, ?_, ?_⟩
  · simp [mrInit]
  · simp [mrInit]
  · intro _; simp [mrInit]
  · intro c hc; simp [mrInit] at hc
  · intro hf; simp [mrInit] at hf
  · intro h; simp [mrInit] at h
  · intro a b h; simp [mrInit] at h
  · simp [mrInit, mrCount, optCount]

/-- The core invariant holds in every reachable MR state. -/
theorem mrCoreInv_reach {V J E : Type} {fMap : V → Except E J}
    {fRed : J → J → Except E J} {inputs : List V} {n0 : Nat}
    {s : MRState V J E} (hn : 1 ≤ n0)
    (h : MRReach fMap fRed (mrInit inputs n0) s) :
    MRCoreInv n0 inputs.length s := by
  induction h with
  | refl => exact mrCoreInv_init inputs n0
  | tail _ hstep ih => exact mrCoreInv_step hn ih hstep

/-- With a pure map and integer addition, a successful task execution
yields exactly the task's intended contribution. -/
theorem evalTask_pure_sum {V : Type} {f : V → Int} {t : WTask V Int} {j : Int}
    (h : evalTask (pureMap f) addRed t = Except.ok j) : j = taskSum f t := by
  cases t with
  | map v =>
      simp [evalTask, pureMap] at h
      simp [taskSum, h.symm]
  | reduce a b =>
      simp [evalTask, addRed] at h
      simp [taskSum, h.symm]

/-- Phase A of a router iteration preserves the MR dataflow invariant. -/
theorem mrSumInv_iterA {V : Type} {f : V → Int} {inputs0 : List V} {n0 : Nat}
    {s : MRState V Int Empty}
    (hcore : MRCoreInv n0 inputs0.length s) (hs : MRSumInv f inputs0 n0 s)
    (_hdone : s.done = none) (hrpc : s.rpc = none) :
    MRSumInv f inputs0 n0 (mrIterA s) := by
  cases hE : s.errorQ with
  | cons e es => exact e.elim
  | nil =>
  cases hS : s.shutdownQ with
  | succ n =>
      rw [mrIterA_sd hE hS]
      refine ⟨?_, ?_, ?_, ?_, ?_, ?_, ?_⟩
      · simpa using hs.aliveEq
      · simpa using hs.noForce
      · simpa using hs.sumEq
      · intro hne
        rw [mrCount_mrCheck]
        exact hs.cntPos hne
      · simpa using hs.mapAcct
      · intro hle
        simpa using hs.redZero hle
      · intro hle a b
        simpa using hs.noRedRpc hle a b
  | zero =>
  cases hR : s.reportQ with
  | succ n =>
      rw [mrIterA_rep hE hS hR]
      refine ⟨?_, ?_, ?_, ?_, ?_, ?_, ?_⟩
      · simpa using hs.aliveEq
      · simpa using hs.noForce
      · simpa using hs.sumEq
      · intro hne
        rw [mrCount_mrCheck]
        exact hs.cntPos hne
      · simpa using hs.mapAcct
      · intro hle
        simpa using hs.redZero hle
      · intro hle a b
        simpa using hs.noRedRpc hle a b
  | zero =>
  cases hO : s.workerOutQ with
  | cons v rest =>
      cases hC : s.carry with
      | some c =>
          rw [mrIterA_outCarry hE hS hR hO hC]
          have hcnt2 : 2 ≤ mrCount s := by
            unfold mrCount
            rw [hO, hC]
            simp [optCount]
            omega
          refine ⟨?_, ?_, ?_, ?_, ?_, ?_, ?_⟩
          · simpa using hs.aliveEq
          · simpa using hs.noForce
          · have := hs.sumEq
            simp [hO, hC, hrpc, rpcContrib, carrySum, List.sum_cons]
              at this ⊢
            omega
          · intro hne
            have := hs.cntPos hne
            unfold mrCount at this ⊢
            simp [hO, hC, hrpc, optCount] at this ⊢
            try omega
          · have := hs.mapAcct
            simp [hrpc] at this
            simp
            omega
          · intro hle
            have := hcore.cntLe
            omega
          · intro hle a b
            have := hcore.cntLe
            omega
      | none =>
          rw [mrIterA_outNone hE hS hR hO hC]
          refine ⟨?_, ?_, ?_, ?_, ?_, ?_, ?_⟩
          · simpa using hs.aliveEq
          · simpa using hs.noForce
          · have := hs.sumEq
            simp [hO, hC, hrpc, rpcContrib, carrySum, List.sum_cons]
              at this ⊢
            omega
          · intro hne
            have := hs.cntPos hne
            rw [mrCount_mrCheck]
            unfold mrCount at this ⊢
            simp [hO, hC, hrpc, optCount] at this ⊢
            try omega
          · have := hs.mapAcct
            simp [hrpc] at this
            simp [hrpc]
            omega
          · intro hle
            simpa using hs.redZero hle
          · intro hle a b
            simp [hrpc]
  | nil =>
  cases hI : s.inputQ with
  | cons v rest =>
      rw [mrIterA_in hE hS hR hO hI]
      refine ⟨?_, ?_, ?_, ?_, ?_, ?_, ?_⟩
      · simpa using hs.aliveEq
      · simpa using hs.noForce
      · have := hs.sumEq
        simp [hI, hrpc, rpcContrib, List.sum_cons] at this ⊢
        omega
      · intro hne
        have := hs.cntPos hne
        unfold mrCount at this ⊢
        simp [hI, hrpc, optCount] at this ⊢
        try omega
      · have := hs.mapAcct
        simp [hI, hrpc] at this
        simp
        omega
      · intro hle
        simpa using hs.redZero hle
      · intro hle a b
        simp
  | nil =>
      rw [mrIterA_idle hE hS hR hO hI]
      refine ⟨?_, ?_, ?_, ?_, ?_, ?_, ?_⟩
      · simpa using hs.aliveEq
      · simpa using hs.noForce
      · simpa using hs.sumEq
      · intro hne
        rw [mrCount_mrCheck]
        exact hs.cntPos hne
      · simpa using hs.mapAcct
      · intro hle
        simpa using hs.redZero hle
      · intro hle a b
        simpa using hs.noRedRpc hle a b

/-- Every step of a pure-map/integer-add MR run preserves the dataflow
invariant. -/
theorem mrSumInv_step {V : Type} {f : V → Int} {inputs0 : List V} {n0 : Nat}
    {s s' : MRState V Int Empty} (hn : 1 ≤ n0)
    (hcore : MRCoreInv n0 inputs0.length s) (hs : MRSumInv f inputs0 n0 s)
    (hstep : MRStep (pureMap f) addRed s s') :
    MRSumInv f inputs0 n0 s' := by
  cases hstep with
  | routerA hdone hrpc => exact mrSumInv_iterA hcore hs hdone hrpc
  | routerB hdone hrpc =>
      rename_i a
      have hal : 0 < s.alive := by
        rw [hs.aliveEq]; omega
      cases a with
      | map v =>
          rw [mrIterB_map_ok hal]
          refine ⟨?_, ?_, ?_, ?_, ?_, ?_, ?_⟩
          · simpa using hs.aliveEq
          · simpa using hs.noForce
          · have := hs.sumEq
            simp [hrpc, rpcContrib, taskSum, List.sum_append] at this ⊢
            omega
          · intro hne
            have := hs.cntPos hne
            rw [mrCount_mrCheck]
            unfold mrCount at this ⊢
            simp [hrpc, optCount] at this ⊢
            try omega
          · have := hs.mapAcct
            simp [hrpc] at this
            simp
            omega
          · intro hle
            simpa using hs.redZero hle
          · intro hle a b
            simp
      | red x y =>
          have hcarry : s.carry = some x := hcore.rpcCarry x y hrpc
          rw [mrIterB_red_ok hal]
          refine ⟨?_, ?_, ?_, ?_, ?_, ?_, ?_⟩
          · simpa using hs.aliveEq
          · simpa using hs.noForce
          · have := hs.sumEq
            simp [hrpc, hcarry, rpcContrib, carrySum, taskSum,
                  List.sum_append] at this ⊢
            omega
          · intro hne
            rw [mrCount_mrCheck]
            unfold mrCount
            simp [optCount]
            omega
          · have := hs.mapAcct
            simp [hrpc] at this
            simp
            omega
          · intro hle
            exact absurd hrpc (hs.noRedRpc hle x y)
          · intro hle a b
            simp
  | workOk hget halive heval =>
      rename_i i t j
      have hlen := length_eraseIdx_get _ i t hget
      have hsum := sum_map_eraseIdx_get (taskSum f) _ i t hget
      have hj := evalTask_pure_sum heval
      refine ⟨?_, ?_, ?_, ?_, ?_, ?_, ?_⟩
      · simpa using hs.aliveEq
      · simpa using hs.noForce
      · have := hs.sumEq
        simp [List.sum_append] at this ⊢
        omega
      · intro hne
        have := hs.cntPos hne
        unfold mrCount at this ⊢
        simp at this ⊢
        omega
      · have := hs.mapAcct
        simp at this ⊢
        omega
      · intro hle
        simpa using hs.redZero hle
      · intro hle a b
        simpa using hs.noRedRpc hle a b
  | workErr hget halive heval =>
      rename_i i t e
      exact e.elim
  | setupFail e halive =>
      exact e.elim
  | signalShutdown =>
      refine ⟨?_, ?_, ?_, ?_, ?_, ?_, ?_⟩
      · simpa using hs.aliveEq
      · simpa using hs.noForce
      · simpa using hs.sumEq
      · intro hne
        have := hs.cntPos hne
        unfold mrCount at this ⊢
        simpa using this
      · simpa using hs.mapAcct
      · intro hle
        simpa using hs.redZero hle
      · intro hle a b
        simpa using hs.noRedRpc hle a b
  | stealShutdown h =>
      refine ⟨?_, ?_, ?_, ?_, ?_, ?_, ?_⟩
      · simpa using hs.aliveEq
      · simpa using hs.noForce
      · simpa using hs.sumEq
      · intro hne
        have := hs.cntPos hne
        unfold mrCount at this ⊢
        simpa using this
      · simpa using hs.mapAcct
      · intro hle
        simpa using hs.redZero hle
      · intro hle a b
        simpa using hs.noRedRpc hle a b
  | tick =>
      refine ⟨?_, ?_, ?_, ?_, ?_, ?_, ?_⟩
      · simpa using hs.aliveEq
      · simpa using hs.noForce
      · simpa using hs.sumEq
      · intro hne
        have := hs.cntPos hne
        unfold mrCount at this ⊢
        simpa using this
      · simpa using hs.mapAcct
      · intro hle
        simpa using hs.redZero hle
      · intro hle a b
        simpa using hs.noRedRpc hle a b

/-- The initial state of a pure-map/integer-add MR run satisfies the
dataflow invariant. -/
theorem mrSumInv_init {V : Type} (f : V → Int) (inputs : List V) (n0 : Nat) :
    MRSumInv f inputs n0 (mrInit inputs n0) := by
  refine ⟨?_, ?_, ?_, ?_, ?_, ?_, ?_⟩
  · rfl
  · rfl
  · simp [mrInit, rpcContrib, carrySum]
  · intro hne
    simp [mrInit, mrCount, optCount]
    exact List.length_pos.mpr hne
  · simp [mrInit]
  · intro _; rfl
  · intro _ a b
    simp [mrInit]

/-- The dataflow invariant holds in every reachable state of a
pure-map/integer-add MR run. -/
theorem mrSumInv_reach {V : Type} {f : V → Int} {inputs : List V} {n0 : Nat}
    {s : MRState V Int Empty} (hn : 1 ≤ n0)
    (h : MRReach (pureMap f) addRed (mrInit inputs n0) s) :
    MRSumInv f inputs n0 s := by
  induction h with
  | refl => exact mrSumInv_init f inputs n0
  | tail hab hstep ih =>
      exact mrSumInv_step hn (mrCoreInv_reach hn hab) ih hstep

/-- What a graceful MR result implies: the graceful predicate held, the
queues were fully drained, no task was lost, and the result is the carry. -/
theorem mrGraceful_extract {V J E : Type} {fMap : V → Except E J}
    {fRed : J → J → Except E J} {inputs : List V} {n0 : Nat}
    {s : MRState V J E} {c : Option J} (hn : 1 ≤ n0)
    (h : MRReach fMap fRed (mrInit inputs n0) s)
    (hdone : s.done = some (ROutcome.ok c)) :
    s.force = false ∧ s.graceful = true ∧ s.pending = 0 ∧ s.carry = c ∧
    s.workerInQ = [] ∧ s.workerOutQ = [] ∧ s.deadTasks = 0 ∧ s.rpc = none := by
  have hc := mrCoreInv_reach hn h
  obtain ⟨hf, hg, hp, hcar⟩ := hc.doneOk c hdone
  have hbal := hc.bal hf
  have hacct := hc.acct
  have hrpc := hc.rpcNone (by rw [hdone]; simp)
  have hin : s.workerInQ.length = 0 ∧ s.workerOutQ.length = 0 ∧
      s.deadTasks = 0 := by omega
  refine ⟨hf, hg, hp, hcar, ?_, ?_, hin.2.2, hrpc⟩
  · exact List.length_eq_zero.mp hin.1
  · exact List.length_eq_zero.mp hin.2.1

/-- In a pure-map/integer-add MR run that ends gracefully having consumed
every submitted vertex, the carry returned is exactly the sum of `f` over
the (nonempty) input. -/
theorem mrGraceful_sum {V : Type} {f : V → Int} {inputs : List V} {n0 : Nat}
    {s : MRState V Int Empty} {c : Option Int} (hn : 1 ≤ n0)
    (h : MRReach (pureMap f) addRed (mrInit inputs n0) s)
    (hdone : s.done = some (ROutcome.ok c))
    (hinp : s.inputQ = []) (hne : inputs ≠ []) :
    c = some ((inputs.map f).sum) := by
  obtain ⟨hf, hg, hp, hcar, hwin, hwout, hdead, hrpc⟩ :=
    mrGraceful_extract hn h hdone
  have hsum := mrSumInv_reach hn h
  have heq := hsum.sumEq
  rw [hinp, hwin, hwout, hrpc] at heq
  simp [rpcContrib] at heq
  have hpos := hsum.cntPos hne
  unfold mrCount at hpos
  rw [hinp, hwin, hwout, hrpc] at hpos
  simp [optCount] at hpos
  cases hcv : s.carry with
  | none => rw [hcv] at hpos; simp [optCount] at hpos
  | some x =>
      rw [hcv] at heq
      simp [carrySum] at heq
      rw [← hcar, hcv, heq]

/-- When `wkCheck` sets `exited`, the termination predicate held (or it was
already set). -/
theorem wkCheck_exited_iff {V J E : Type} (s : WKState V J E) :
    (wkCheck s).exited = true ↔
      (s.exited = true ∨ s.force = true ∨
       (s.graceful = true ∧ s.pending = 0)) := by
  unfold wkCheck
  split
  · rename_i hp
    simp
    exact Or.inr hp
  · rename_i hp
    constructor
    · intro he
      exact Or.inl he
    · intro hc
      rcases hc with hc | hc
      · exact hc
      · exact absurd hc hp

/-- Every WK step preserves the WK core invariant (with at least one worker
configured). -/
theorem wkCoreInv_step {V J E : Type} {fMap : V → Except E J}
    {fRed : J → J → Except E J} {n0 : Nat} {s s' : WKState V J E}
    (hn : 1 ≤ n0) (hs : WKCoreInv n0 s) (hstep : WKStep fMap fRed s s') :
    WKCoreInv n0 s' := by
  have hdn : s.exited = false → s.done = none := by
    intro hex
    cases hd : s.done with
    | none => rfl
    | some r =>
        have := hs.doneExited (by rw [hd]; simp)
        rw [hex] at this
        exact Bool.noConfusion this
  cases hstep with
  | vertex hexit hin =>
      rename_i v rest
      have hdone := hdn hexit
      unfold wkHandleVertex
      split
      · refine ⟨?_, ?_, ?_, ?_, ?_, ?_, ?_⟩
        · simpa using hs.errCount
        · have := hs.acct
          simp
          omega
        · have := hs.bal
          simp
          omega
        · intro hf
          simpa using hs.forceDead (by simpa using hf)
        · intro he
          rw [wkCheck_exited_iff] at he
          simp [hexit] at he
          exact Or.inl (by simpa using he)
        · intro hne
          simp [hdone] at hne
        · intro r hr
          simp [hdone] at hr
      · rename_i hal
        simp at hal
        refine ⟨?_, ?_, ?_, ?_, ?_, ?_, ?_⟩
        · simpa using hs.errCount
        · simpa using hs.acct
        · simpa using hs.bal
        · intro _
          have hec := hs.errCount
          simp
          intro hnil
          rw [hnil] at hec
          simp at hec
          omega
        · intro he
          exact Or.inl (by simp)
        · intro hne
          simp [hdone] at hne
        · intro r hr
          simp [hdone] at hr
  | output hexit hout =>
      rename_i v rest
      have hdone := hdn hexit
      have hpend : 1 ≤ s.pending := by
        have hb := hs.bal
        have ha := hs.acct
        rw [hout] at ha
        simp at ha
        omega
      unfold wkHandleOutput
      cases hC : s.carry with
      | some c =>
          simp only []
          split
          · refine ⟨?_, ?_, ?_, ?_, ?_, ?_, ?_⟩
            · simpa using hs.errCount
            · have := hs.acct
              rw [hout] at this
              simp at this ⊢
              omega
            · have := hs.bal
              simp
              omega
            · intro hf
              simpa using hs.forceDead (by simpa using hf)
            · intro he
              rw [wkCheck_exited_iff] at he
              simp [hexit] at he
              exact Or.inl (by simpa using he)
            · intro hne
              simp [hdone] at hne
            · intro r hr
              simp [hdone] at hr
          · rename_i hal
            simp at hal
            refine ⟨?_, ?_, ?_, ?_, ?_, ?_, ?_⟩
            · simpa using hs.errCount
            · have := hs.acct
              rw [hout] at this
              simp at this ⊢
              omega
            · have := hs.bal
              simp
              omega
            · intro _
              have hec := hs.errCount
              simp
              intro hnil
              rw [hnil] at hec
              simp at hec
              omega
            · intro he
              exact Or.inl (by simp)
            · intro hne
              simp [hdone] at hne
            · intro r hr
              simp [hdone] at hr
      | none =>
          simp only []
          refine ⟨?_, ?_, ?_, ?_, ?_, ?_, ?_⟩
          · simpa using hs.errCount
          · have := hs.acct
            rw [hout] at this
            simp at this ⊢
            omega
          · have := hs.bal
            simp
            omega
          · intro hf
            simpa using hs.forceDead (by simpa using hf)
          · intro he
            rw [wkCheck_exited_iff] at he
            simp [hexit] at he
            rcases he with he | he
            · exact Or.inl (by simpa using he)
            · exact Or.inr ⟨by simpa using he.1, by simpa using he.2⟩
          · intro hne
            simp [hdone] at hne
          · intro r hr
            simp [hdone] at hr
  | shutdown hexit hsd =>
      have hdone := hdn hexit
      refine ⟨?_, ?_, ?_, ?_, ?_, ?_, ?_⟩
      · simpa using hs.errCount
      · simpa using hs.acct
      · simpa using hs.bal
      · intro hf
        simpa using hs.forceDead (by simpa using hf)
      · intro he
        rw [wkCheck_exited_iff] at he
        simp [hexit] at he
        rcases he with he | he
        · exact Or.inl (by simpa using he)
        · exact Or.inr ⟨by simp, by simpa using he⟩
      · intro hne
        simp [hdone] at hne
      · intro r hr
        simp [hdone] at hr
  | timeout hexit =>
      have hdone := hdn hexit
      refine ⟨?_, ?_, ?_, ?_, ?_, ?_, ?_⟩
      · simpa using hs.errCount
      · simpa using hs.acct
      · simpa using hs.bal
      · intro hf
        simpa using hs.forceDead (by simpa using hf)
      · intro he
        rw [wkCheck_exited_iff] at he
        simp [hexit] at he
        rcases he with he | he
        · exact Or.inl (by simpa using he)
        · exact Or.inr ⟨by simpa using he.1, by simpa using he.2⟩
      · intro hne
        simp [hdone] at hne
      · intro r hr
        simp [hdone] at hr
  | joinFinish hexit hdone =>
      refine ⟨?_, ?_, ?_, ?_, ?_, ?_, ?_⟩
      · simpa using hs.errCount
      · simpa using hs.acct
      · simpa using hs.bal
      · intro hf
        simpa using hs.forceDead (by simpa using hf)
      · intro _
        exact hs.exitedPred hexit
      · intro _
        simpa using hexit
      · intro r hr
        simp at hr
        exact hr.symm
  | workOk hdone hget halive heval =>
      rename_i i t j
      have hlen := length_eraseIdx_get _ i t hget
      refine ⟨?_, ?_, ?_, ?_, ?_, ?_, ?_⟩
      · simpa using hs.errCount
      · have := hs.acct
        simp at this ⊢
        omega
      · simpa using hs.bal
      · intro hf
        simpa using hs.forceDead (by simpa using hf)
      · intro he
        exact hs.exitedPred (by simpa using he)
      · intro hne
        simp [hdone] at hne
      · intro r hr
        simp [hdone] at hr
  | workErr hdone hget halive heval =>
      rename_i i t e
      have hlen := length_eraseIdx_get _ i t hget
      refine ⟨?_, ?_, ?_, ?_, ?_, ?_, ?_⟩
      · have := hs.errCount
        simp
        omega
      · have := hs.acct
        simp at this ⊢
        omega
      · simpa using hs.bal
      · intro hf
        have := hs.forceDead (by simpa using hf)
        simp
      · intro he
        exact hs.exitedPred (by simpa using he)
      · intro hne
        simp [hdone] at hne
      · intro r hr
        simp [hdone] at hr
  | setupFail e hdone halive =>
      refine ⟨?_, ?_, ?_, ?_, ?_, ?_, ?_⟩
      · have := hs.errCount
        simp
        omega
      · simpa using hs.acct
      · simpa using hs.bal
      · intro hf
        simp
      · intro he
        exact hs.exitedPred (by simpa using he)
      · intro hne
        simp [hdone] at hne
      · intro r hr
        simp [hdone] at hr
  | signalShutdown =>
      refine ⟨?_, ?_, ?_, ?_, ?_, ?_, ?_⟩
      · simpa using hs.errCount
      · simpa using hs.acct
      · simpa using hs.bal
      · intro hf
        simpa using hs.forceDead (by simpa using hf)
      · intro he
        exact hs.exitedPred (by simpa using he)
      · intro hne
        have := hs.doneExited (by simpa using hne)
        simpa using this
      · intro r hr
        have := hs.doneVal r (by simpa using hr)
        simpa using this

/-- The initial WK state satisfies the WK core invariant. -/
theorem wkCoreInv_init {V J E : Type} (inputs : List V) (n0 : Nat) :
    WKCoreInv n0 (wkInit (J := J) (E := E) inputs n0) := by
  refine ⟨?_, ?_, ?_, ?_, ?_, ?_, ?_⟩
  · simp [wkInit]
  · simp [wkInit]
  · simp [wkInit]
  · intro hf; simp [wkInit] at hf
  · intro he; simp [wkInit] at he
  · intro hne; simp [wkInit] at hne
  · intro r hr; simp [wkInit] at hr

/-- The WK core invariant holds in every reachable WK state. -/
theorem wkCoreInv_reach {V J E : Type} {fMap : V → Except E J}
    {fRed : J → J → Except E J} {inputs : List V} {n0 : Nat}
    {s : WKState V J E} (hn : 1 ≤ n0)
    (h : WKReach fMap fRed (wkInit inputs n0) s) :
    WKCoreInv n0 s := by
  induction h with
  | refl => exact wkCoreInv_init inputs n0
  | tail _ hstep ih => exact wkCoreInv_step hn ih hstep

/-! ## Concrete schedules -/

/-- Schedule reaching `mrDropFinal`: the facade's shutdown signal is
queued, then one router iteration consumes it and terminates with the
vertex still queued. -/
theorem mrDropReach :
    MRReach (pureMap (fun _ : Unit => (1 : Int))) addRed
      (mrInit [()] 1) mrDropFinal := by
  have h1 : MRStep (pureMap (fun _ : Unit => (1 : Int))) addRed
      (mrInit [()] 1)
      { mrInit (J := Int) (E := Empty) [()] 1 with shutdownQ := 1 } :=
    MRStep.signalShutdown
  have h2 : MRStep (pureMap (fun _ : Unit => (1 : Int))) addRed
      { mrInit (J := Int) (E := Empty) [()] 1 with shutdownQ := 1 }
      mrDropFinal :=
    MRStep.routerA rfl rfl
  exact Relation.ReflTransGen.tail (Relation.ReflTransGen.single h1) h2

/-- Schedule reaching `mrGoodFinal`: the vertex is dispatched, mapped, its
output becomes the carry, and only then is the shutdown signal observed. -/
theorem mrGoodReach :
    MRReach (pureMap (fun _ : Unit => (2 : Int))) addRed
      (mrInit [()] 1) mrGoodFinal := by
  have h1 : MRStep (pureMap (fun _ : Unit => (2 : Int))) addRed
      (mrInit [()] 1)
      { progress := 0, pending := 0, reportNum := 0, force := false,
        graceful := false, carry := none, rpc := some (PendAct.map ()),
        done := none, errorQ := [], shutdownQ := 0, reportQ := 0,
        workerOutQ := [], workerInQ := [], inputQ := [], alive := 1,
        issued := 0, completed := 0, mapIssued := 0, redIssued := 0,
        deadTasks := 0 } :=
    MRStep.routerA rfl rfl
  have h2 : MRStep (pureMap (fun _ : Unit => (2 : Int))) addRed
      { progress := 0, pending := 0, reportNum := 0, force := false,
        graceful := false, carry := none, rpc := some (PendAct.map ()),
        done := none, errorQ := [], shutdownQ := 0, reportQ := 0,
        workerOutQ := [], workerInQ := [], inputQ := [], alive := 1,
        issued := 0, completed := 0, mapIssued := 0, redIssued := 0,
        deadTasks := 0 }
      { progress := 1, pending := 1, reportNum := 0, force := false,
        graceful := false, carry := none, rpc := none,
        done := none, errorQ := [], shutdownQ := 0, reportQ := 0,
        workerOutQ := [], workerInQ := [WTask.map ()], inputQ := [],
        alive := 1, issued := 1, completed := 0, mapIssued := 1,
        redIssued := 0, deadTasks := 0 } :=
    MRStep.routerB (a := PendAct.map ()) rfl rfl
  have h3 : MRStep (pureMap (fun _ : Unit => (2 : Int))) addRed
      { progress := 1, pending := 1, reportNum := 0, force := false,
        graceful := false, carry := none, rpc := none,
        done := none, errorQ := [], shutdownQ := 0, reportQ := 0,
        workerOutQ := [], workerInQ := [WTask.map ()], inputQ := [],
        alive := 1, issued := 1, completed := 0, mapIssued := 1,
        redIssued := 0, deadTasks := 0 }
      { progress := 1, pending := 1, reportNum := 0, force := false,
        graceful := false, carry := none, rpc := none,
        done := none, errorQ := [], shutdownQ := 0, reportQ := 0,
        workerOutQ := [2], workerInQ := [], inputQ := [],
        alive := 1, issued := 1, completed := 0, mapIssued := 1,
        redIssued := 0, deadTasks := 0 } :=
    MRStep.workOk (i := 0) rfl (by decide) rfl
  have h4 : MRStep (pureMap (fun _ : Unit => (2 : Int))) addRed
      { progress := 1, pending := 1, reportNum := 0, force := false,
        graceful := false, carry := none, rpc := none,
        done := none, errorQ := [], shutdownQ := 0, reportQ := 0,
        workerOutQ := [2], workerInQ := [], inputQ := [],
        alive := 1, issued := 1, completed := 0, mapIssued := 1,
        redIssued := 0, deadTasks := 0 }
      { progress := 1, pending := 0, reportNum := 0, force := false,
        graceful := false, carry := some 2, rpc := none,
        done := none, errorQ := [], shutdownQ := 0, reportQ := 0,
        workerOutQ := [], workerInQ := [], inputQ := [],
        alive := 1, issued := 1, completed := 1, mapIssued := 1,
        redIssued := 0, deadTasks := 0 } :=
    MRStep.routerA rfl rfl
  have h5 : MRStep (pureMap (fun _ : Unit => (2 : Int))) addRed
      { progress := 1, pending := 0, reportNum := 0, force := false,
        graceful := false, carry := some 2, rpc := none,
        done := none, errorQ := [], shutdownQ := 0, reportQ := 0,
        workerOutQ := [], workerInQ := [], inputQ := [],
        alive := 1, issued := 1, completed := 1, mapIssued := 1,
        redIssued := 0, deadTasks := 0 }
      { progress := 1, pending := 0, reportNum := 0, force := false,
        graceful := false, carry := some 2, rpc := none,
        done := none, errorQ := [], shutdownQ := 1, reportQ := 0,
        workerOutQ := [], workerInQ := [], inputQ := [],
        alive := 1, issued := 1, completed := 1, mapIssued := 1,
        redIssued := 0, deadTasks := 0 } :=
    MRStep.signalShutdown
  have h6 : MRStep (pureMap (fun _ : Unit => (2 : Int))) addRed
      { progress := 1, pending := 0, reportNum := 0, force := false,
        graceful := false, carry := some 2, rpc := none,
        done := none, errorQ := [], shutdownQ := 1, reportQ := 0,
        workerOutQ := [], workerInQ := [], inputQ := [],
        alive := 1, issued := 1, completed := 1, mapIssued := 1,
        redIssued := 0, deadTasks := 0 }
      mrGoodFinal :=
    MRStep.routerA rfl rfl
  exact Relation.ReflTransGen.tail
    (Relation.ReflTransGen.tail
      (Relation.ReflTransGen.tail
        (Relation.ReflTransGen.tail
          (Relation.ReflTransGen.tail (Relation.ReflTransGen.single h1) h2)
          h3)
        h4)
      h5)
    h6

/-- Schedule reaching `mrRedDropFinal`: three vertices are dispatched, one
worker maps the first two, the router pairs their outputs into a pending
`Reduce(1, 2)` dispatch, then that worker dies on vertex 3's map call and
the other worker dies in setup, so the Reduce send fails. -/
theorem mrRedDropReach :
    MRReach c4map c4red (mrInit [1, 2, 3] 2) mrRedDropFinal := by
  have h1 : MRStep c4map c4red
      (mrInit [1, 2, 3] 2)
      { progress := 0, pending := 0, reportNum := 0, force := false,
        graceful := false, carry := none, rpc := some (PendAct.map 1),
        done := none, errorQ := [], shutdownQ := 0, reportQ := 0,
        workerOutQ := [], workerInQ := [], inputQ := [2, 3],
        alive := 2, issued := 0, completed := 0, mapIssued := 0,
        redIssued := 0, deadTasks := 0 } :=
    MRStep.routerA rfl rfl
  have h2 : MRStep c4map c4red
      { progress := 0, pending := 0, reportNum := 0, force := false,
        graceful := false, carry := none, rpc := some (PendAct.map 1),
        done := none, errorQ := [], shutdownQ := 0, reportQ := 0,
        workerOutQ := [], workerInQ := [], inputQ := [2, 3],
        alive := 2, issued := 0, completed := 0, mapIssued := 0,
        redIssued := 0, deadTasks := 0 }
      { progress := 1, pending := 1, reportNum := 0, force := false,
        graceful := false, carry := none, rpc := none,
        done := none, errorQ := [], shutdownQ := 0, reportQ := 0,
        workerOutQ := [], workerInQ := [WTask.map 1], inputQ := [2, 3],
        alive := 2, issued := 1, completed := 0, mapIssued := 1,
        redIssued := 0, deadTasks := 0 } :=
    MRStep.routerB (a := PendAct.map 1) rfl rfl
  have h3 : MRStep c4map c4red
      { progress := 1, pending := 1, reportNum := 0, force := false,
        graceful := false, carry := none, rpc := none,
        done := none, errorQ := [], shutdownQ := 0, reportQ := 0,
        workerOutQ := [], workerInQ := [WTask.map 1], inputQ := [2, 3],
        alive := 2, issued := 1, completed := 0, mapIssued := 1,
        redIssued := 0, deadTasks := 0 }
      { progress := 1, pending := 1, reportNum := 0, force := false,
        graceful := false, carry := none, rpc := some (PendAct.map 2),
        done := none, errorQ := [], shutdownQ := 0, reportQ := 0,
        workerOutQ := [], workerInQ := [WTask.map 1], inputQ := [3],
        alive := 2, issued := 1, completed := 0, mapIssued := 1,
        redIssued := 0, deadTasks := 0 } :=
    MRStep.routerA rfl rfl
  have h4 : MRStep c4map c4red
      { progress := 1, pending := 1, reportNum := 0, force := false,
        graceful := false, carry := none, rpc := some (PendAct.map 2),
        done := none, errorQ := [], shutdownQ := 0, reportQ := 0,
        workerOutQ := [], workerInQ := [WTask.map 1], inputQ := [3],
        alive := 2, issued := 1, completed := 0, mapIssued := 1,
        redIssued := 0, deadTasks := 0 }
      { progress := 2, pending := 2, reportNum := 0, force := false,
        graceful := false, carry := none, rpc := none,
        done := none, errorQ := [], shutdownQ := 0, reportQ := 0,
        workerOutQ := [], workerInQ := [WTask.map 1, WTask.map 2], inputQ := [3],
        alive := 2, issued := 2, completed := 0, mapIssued := 2,
        redIssued := 0, deadTasks := 0 } :=
    MRStep.routerB (a := PendAct.map 2) rfl rfl
  have h5 : MRStep c4map c4red
      { progress := 2, pending := 2, reportNum := 0, force := false,
        graceful := false, carry := none, rpc := none,
        done := none, errorQ := [], shutdownQ := 0, reportQ := 0,
        workerOutQ := [], workerInQ := [WTask.map 1, WTask.map 2], inputQ := [3],
        alive := 2, issued := 2, completed := 0, mapIssued := 2,
        redIssued := 0, deadTasks := 0 }
      { progress := 2, pending := 2, reportNum := 0, force := false,
        graceful := false, carry := none, rpc := some (PendAct.map 3),
        done := none, errorQ := [], shutdownQ := 0, reportQ := 0,
        workerOutQ := [], workerInQ := [WTask.map 1, WTask.map 2], inputQ := [],
        alive := 2, issued := 2, completed := 0, mapIssued := 2,
        redIssued := 0, deadTasks := 0 } :=
    MRStep.routerA rfl rfl
  have h6 : MRStep c4map c4red
      { progress := 2, pending := 2, reportNum := 0, force := false,
        graceful := false, carry := none, rpc := some (PendAct.map 3),
        done := none, errorQ := [], shutdownQ := 0, reportQ := 0,
        workerOutQ := [], workerInQ := [WTask.map 1, WTask.map 2], inputQ := [],
        alive := 2, issued := 2, completed := 0, mapIssued := 2,
        redIssued := 0, deadTasks := 0 }
      { progress := 3, pending := 3, reportNum := 0, force := false,
        graceful := false, carry := none, rpc := none,
        done := none, errorQ := [], shutdownQ := 0, reportQ := 0,
        workerOutQ := [], workerInQ := [WTask.map 1, WTask.map 2, WTask.map 3], inputQ := [],
        alive := 2, issued := 3, completed := 0, mapIssued := 3,
        redIssued := 0, deadTasks := 0 } :=
    MRStep.routerB (a := PendAct.map 3) rfl rfl
  have h7 : MRStep c4map c4red
      { progress := 3, pending := 3, reportNum := 0, force := false,
        graceful := false, carry := none, rpc := none,
        done := none, errorQ := [], shutdownQ := 0, reportQ := 0,
        workerOutQ := [], workerInQ := [WTask.map 1, WTask.map 2, WTask.map 3], inputQ := [],
        alive := 2, issued := 3, completed := 0, mapIssued := 3,
        redIssued := 0, deadTasks := 0 }
      { progress := 3, pending := 3, reportNum := 0, force := false,
        graceful := false, carry := none, rpc := none,
        done := none, errorQ := [], shutdownQ := 0, reportQ := 0,
        workerOutQ := [1], workerInQ := [WTask.map 2, WTask.map 3], inputQ := [],
        alive := 2, issued := 3, completed := 0, mapIssued := 3,
        redIssued := 0, deadTasks := 0 } :=
    MRStep.workOk (i := 0) rfl (by decide) rfl
  have h8 : MRStep c4map c4red
      { progress := 3, pending := 3, reportNum := 0, force := false,
        graceful := false, carry := none, rpc := none,
        done := none, errorQ := [], shutdownQ := 0, reportQ := 0,
        workerOutQ := [1], workerInQ := [WTask.map 2, WTask.map 3], inputQ := [],
        alive := 2, issued := 3, completed := 0, mapIssued := 3,
        redIssued := 0, deadTasks := 0 }
      { progress := 3, pending := 3, reportNum := 0, force := false,
        graceful := false, carry := none, rpc := none,
        done := none, errorQ := [], shutdownQ := 0, reportQ := 0,
        workerOutQ := [1, 2], workerInQ := [WTask.map 3], inputQ := [],
        alive := 2, issued := 3, completed := 0, mapIssued := 3,
        redIssued := 0, deadTasks := 0 } :=
    MRStep.workOk (i := 0) rfl (by decide) rfl
  have h9 : MRStep c4map c4red
      { progress := 3, pending := 3, reportNum := 0, force := false,
        graceful := false, carry := none, rpc := none,
        done := none, errorQ := [], shutdownQ := 0, reportQ := 0,
        workerOutQ := [1, 2], workerInQ := [WTask.map 3], inputQ := [],
        alive := 2, issued := 3, completed := 0, mapIssued := 3,
        redIssued := 0, deadTasks := 0 }
      { progress := 3, pending := 2, reportNum := 0, force := false,
        graceful := false, carry := some 1, rpc := none,
        done := none, errorQ := [], shutdownQ := 0, reportQ := 0,
        workerOutQ := [2], workerInQ := [WTask.map 3], inputQ := [],
        alive := 2, issued := 3, completed := 1, mapIssued := 3,
        redIssued := 0, deadTasks := 0 } :=
    MRStep.routerA rfl rfl
  have h10 : MRStep c4map c4red
      { progress := 3, pending := 2, reportNum := 0, force := false,
        graceful := false, carry := some 1, rpc := none,
        done := none, errorQ := [], shutdownQ := 0, reportQ := 0,
        workerOutQ := [2], workerInQ := [WTask.map 3], inputQ := [],
        alive := 2, issued := 3, completed := 1, mapIssued := 3,
        redIssued := 0, deadTasks := 0 }
      { progress := 3, pending := 1, reportNum := 0, force := false,
        graceful := false, carry := some 1, rpc := some (PendAct.red 1 2),
        done := none, errorQ := [], shutdownQ := 0, reportQ := 0,
        workerOutQ := [], workerInQ := [WTask.map 3], inputQ := [],
        alive := 2, issued := 3, completed := 2, mapIssued := 3,
        redIssued := 0, deadTasks := 0 } :=
    MRStep.routerA rfl rfl
  have h11 : MRStep c4map c4red
      { progress := 3, pending := 1, reportNum := 0, force := false,
        graceful := false, carry := some 1, rpc := some (PendAct.red 1 2),
        done := none, errorQ := [], shutdownQ := 0, reportQ := 0,
        workerOutQ := [], workerInQ := [WTask.map 3], inputQ := [],
        alive := 2, issued := 3, completed := 2, mapIssued := 3,
        redIssued := 0, deadTasks := 0 }
      { progress := 3, pending := 1, reportNum := 0, force := false,
        graceful := false, carry := some 1, rpc := some (PendAct.red 1 2),
        done := none, errorQ := [7], shutdownQ := 0, reportQ := 0,
        workerOutQ := [], workerInQ := [], inputQ := [],
        alive := 1, issued := 3, completed := 2, mapIssued := 3,
        redIssued := 0, deadTasks := 1 } :=
    MRStep.workErr (i := 0) rfl (by decide) rfl
  have h12 : MRStep c4map c4red
      { progress := 3, pending := 1, reportNum := 0, force := false,
        graceful := false, carry := some 1, rpc := some (PendAct.red 1 2),
        done := none, errorQ := [7], shutdownQ := 0, reportQ := 0,
        workerOutQ := [], workerInQ := [], inputQ := [],
        alive := 1, issued := 3, completed := 2, mapIssued := 3,
        redIssued := 0, deadTasks := 1 }
      { progress := 3, pending := 1, reportNum := 0, force := false,
        graceful := false, carry := some 1, rpc := some (PendAct.red 1 2),
        done := none, errorQ := [7, 9], shutdownQ := 0, reportQ := 0,
        workerOutQ := [], workerInQ := [], inputQ := [],
        alive := 0, issued := 3, completed := 2, mapIssued := 3,
        redIssued := 0, deadTasks := 1 } :=
    MRStep.setupFail 9 (by decide)
  have h13 : MRStep c4map c4red
      { progress := 3, pending := 1, reportNum := 0, force := false,
        graceful := false, carry := some 1, rpc := some (PendAct.red 1 2),
        done := none, errorQ := [7, 9], shutdownQ := 0, reportQ := 0,
        workerOutQ := [], workerInQ := [], inputQ := [],
        alive := 0, issued := 3, completed := 2, mapIssued := 3,
        redIssued := 0, deadTasks := 1 }
      mrRedDropFinal :=
    MRStep.routerB (a := PendAct.red 1 2) rfl rfl
  exact Relation.ReflTransGen.tail
    (Relation.ReflTransGen.tail
      (Relation.ReflTransGen.tail
        (Relation.ReflTransGen.tail
          (Relation.ReflTransGen.tail
            (Relation.ReflTransGen.tail
              (Relation.ReflTransGen.tail
                (Relation.ReflTransGen.tail
                  (Relation.ReflTransGen.tail
                    (Relation.ReflTransGen.tail
                      (Relation.ReflTransGen.tail
                        (Relation.ReflTransGen.tail
                          (Relation.ReflTransGen.single h1)
                          h2)
                        h3)
                      h4)
                    h5)
                  h6)
                h7)
              h8)
            h9)
          h10)
        h11)
      h12)
    h13

/-- Schedule reaching `mrSendFailFinal`: the router chooses to dispatch
the only vertex, the only worker dies in setup, and the send fails. -/
theorem mrSendFailReach :
    MRReach (fun _ : Unit => (Except.ok 1 : Except Unit Int))
      (fun a b => Except.ok (a + b)) (mrInit [()] 1) mrSendFailFinal := by
  have h1 : MRStep (fun _ : Unit => (Except.ok 1 : Except Unit Int))
      (fun a b => Except.ok (a + b))
      (mrInit [()] 1)
      { progress := 0, pending := 0, reportNum := 0, force := false,
        graceful := false, carry := none, rpc := some (PendAct.map ()),
        done := none, errorQ := [], shutdownQ := 0, reportQ := 0,
        workerOutQ := [], workerInQ := [], inputQ := [], alive := 1,
        issued := 0, completed := 0, mapIssued := 0, redIssued := 0,
        deadTasks := 0 } :=
    MRStep.routerA rfl rfl
  have h2 : MRStep (fun _ : Unit => (Except.ok 1 : Except Unit Int))
      (fun a b => Except.ok (a + b))
      { progress := 0, pending := 0, reportNum := 0, force := false,
        graceful := false, carry := none, rpc := some (PendAct.map ()),
        done := none, errorQ := [], shutdownQ := 0, reportQ := 0,
        workerOutQ := [], workerInQ := [], inputQ := [], alive := 1,
        issued := 0, completed := 0, mapIssued := 0, redIssued := 0,
        deadTasks := 0 }
      { progress := 0, pending := 0, reportNum := 0, force := false,
        graceful := false, carry := none, rpc := some (PendAct.map ()),
        done := none, errorQ := [()], shutdownQ := 0, reportQ := 0,
        workerOutQ := [], workerInQ := [], inputQ := [], alive := 0,
        issued := 0, completed := 0, mapIssued := 0, redIssued := 0,
        deadTasks := 0 } :=
    MRStep.setupFail () (by decide)
  have h3 : MRStep (fun _ : Unit => (Except.ok 1 : Except Unit Int))
      (fun a b => Except.ok (a + b))
      { progress := 0, pending := 0, reportNum := 0, force := false,
        graceful := false, carry := none, rpc := some (PendAct.map ()),
        done := none, errorQ := [()], shutdownQ := 0, reportQ := 0,
        workerOutQ := [], workerInQ := [], inputQ := [], alive := 0,
        issued := 0, completed := 0, mapIssued := 0, redIssued := 0,
        deadTasks := 0 }
      mrSendFailFinal :=
    MRStep.routerB (a := PendAct.map ()) rfl rfl
  exact Relation.ReflTransGen.tail
    (Relation.ReflTransGen.tail (Relation.ReflTransGen.single h1) h2) h3

/-- Schedule reaching `wkErrFinal`: the only worker's setup fails, the
facade requests shutdown, the loop exits gracefully with nothing pending,
and the joins surface the setup error. -/
theorem wkErrReach :
    WKReach (fun _ : Unit => (Except.ok 0 : Except Unit Int))
      (fun a b => Except.ok (a + b)) (wkInit [] 1) wkErrFinal := by
  have h1 : WKStep (fun _ : Unit => (Except.ok 0 : Except Unit Int))
      (fun a b => Except.ok (a + b))
      (wkInit [] 1)
      { pending := 0, force := false, graceful := false, carry := none,
        exited := false, done := none, shutdownQ := 0, workerOutQ := [],
        workerInQ := [], inputQ := [], alive := 0, deadErrs := [()],
        issued := 0, completed := 0, deadTasks := 0 } :=
    WKStep.setupFail () rfl (by decide)
  have h2 : WKStep (fun _ : Unit => (Except.ok 0 : Except Unit Int))
      (fun a b => Except.ok (a + b))
      { pending := 0, force := false, graceful := false, carry := none,
        exited := false, done := none, shutdownQ := 0, workerOutQ := [],
        workerInQ := [], inputQ := [], alive := 0, deadErrs := [()],
        issued := 0, completed := 0, deadTasks := 0 }
      { pending := 0, force := false, graceful := false, carry := none,
        exited := false, done := none, shutdownQ := 1, workerOutQ := [],
        workerInQ := [], inputQ := [], alive := 0, deadErrs := [()],
        issued := 0, completed := 0, deadTasks := 0 } :=
    WKStep.signalShutdown
  have h3 : WKStep (fun _ : Unit => (Except.ok 0 : Except Unit Int))
      (fun a b => Except.ok (a + b))
      { pending := 0, force := false, graceful := false, carry := none,
        exited := false, done := none, shutdownQ := 1, workerOutQ := [],
        workerInQ := [], inputQ := [], alive := 0, deadErrs := [()],
        issued := 0, completed := 0, deadTasks := 0 }
      { pending := 0, force := false, graceful := true, carry := none,
        exited := true, done := none, shutdownQ := 0, workerOutQ := [],
        workerInQ := [], inputQ := [], alive := 0, deadErrs := [()],
        issued := 0, completed := 0, deadTasks := 0 } :=
    WKStep.shutdown rfl (by decide)
  have h4 : WKStep (fun _ : Unit => (Except.ok 0 : Except Unit Int))
      (fun a b => Except.ok (a + b))
      { pending := 0, force := false, graceful := true, carry := none,
        exited := true, done := none, shutdownQ := 0, workerOutQ := [],
        workerInQ := [], inputQ := [], alive := 0, deadErrs := [()],
        issued := 0, completed := 0, deadTasks := 0 }
      wkErrFinal :=
    WKStep.joinFinish rfl rfl
  exact Relation.ReflTransGen.tail
    (Relation.ReflTransGen.tail
      (Relation.ReflTransGen.tail (Relation.ReflTransGen.single h1) h2) h3)
    h4

/-- `mrCheck` cannot produce the panic outcome when every force shutdown
is backed by a queued error. -/
theorem mrCheck_noCrash {V J E : Type} {s : MRState V J E}
    (hfe : s.force = true → s.errorQ ≠ [])
    (hd : s.done ≠ some ROutcome.crashed) :
    (mrCheck s).done ≠ some ROutcome.crashed := by
  unfold mrCheck
  split
  · simp only []
    unfold mrResult
    split
    · rename_i hf
      cases hE : s.errorQ with
      | nil => exact absurd hE (hfe (by simpa using hf))
      | cons e es => simp
    · simp
  · exact hd

/-- No MR step can produce the panic outcome. -/
theorem mrNoCrash_step {V J E : Type} {fMap : V → Except E J}
    {fRed : J → J → Except E J} {n0 len0 : Nat} {s s' : MRState V J E}
    (hn : 1 ≤ n0) (hs : MRCoreInv n0 len0 s)
    (hnc : s.done ≠ some ROutcome.crashed)
    (hstep : MRStep fMap fRed s s') :
    s'.done ≠ some ROutcome.crashed := by
  cases hstep with
  | routerA hdone hrpc =>
      have hforce : s.force = false := mrForce_false_of_done_none hs hdone
      cases hE : s.errorQ with
      | cons e es =>
          rw [mrIterA_err hE]
          refine mrCheck_noCrash (fun _ => ?_) (by simpa using hnc)
          simp [hE]
      | nil =>
      cases hS : s.shutdownQ with
      | succ n =>
          rw [mrIterA_sd hE hS]
          refine mrCheck_noCrash (fun hf => ?_) (by simpa using hnc)
          simp [hforce] at hf
      | zero =>
      cases hR : s.reportQ with
      | succ n =>
          rw [mrIterA_rep hE hS hR]
          refine mrCheck_noCrash (fun hf => ?_) (by simpa using hnc)
          simp [hforce] at hf
      | zero =>
      cases hO : s.workerOutQ with
      | cons v rest =>
          cases hC : s.carry with
          | some c =>
              rw [mrIterA_outCarry hE hS hR hO hC]
              simpa using hnc
          | none =>
              rw [mrIterA_outNone hE hS hR hO hC]
              refine mrCheck_noCrash (fun hf => ?_) (by simpa using hnc)
              simp [hforce] at hf
      | nil =>
      cases hI : s.inputQ with
      | cons v rest =>
          rw [mrIterA_in hE hS hR hO hI]
          simpa using hnc
      | nil =>
          rw [mrIterA_idle hE hS hR hO hI]
          refine mrCheck_noCrash (fun hf => ?_) (by simpa using hnc)
          simp [hforce] at hf
  | routerB hdone hrpc =>
      rename_i a
      have hforce : s.force = false := mrForce_false_of_done_none hs hdone
      have herrNonempty : s.alive = 0 → s.errorQ ≠ [] := by
        intro hz hnil
        have := hs.errCount
        rw [hz, hnil] at this
        simp at this
        omega
      cases a with
      | map v =>
          by_cases hal : 0 < s.alive
          · rw [mrIterB_map_ok hal]
            refine mrCheck_noCrash (fun hf => ?_) (by simpa using hnc)
            simp [hforce] at hf
          · rw [mrIterB_map_fail hal]
            refine mrCheck_noCrash (fun _ => ?_) (by simpa using hnc)
            have := herrNonempty (by omega)
            simpa using this
      | red x y =>
          by_cases hal : 0 < s.alive
          · rw [mrIterB_red_ok hal]
            refine mrCheck_noCrash (fun hf => ?_) (by simpa using hnc)
            simp [hforce] at hf
          · rw [mrIterB_red_fail hal]
            refine mrCheck_noCrash (fun _ => ?_) (by simpa using hnc)
            have := herrNonempty (by omega)
            simpa using this
  | workOk hget halive heval => simpa using hnc
  | workErr hget halive heval => simpa using hnc
  | setupFail e halive => simpa using hnc
  | signalShutdown => simpa using hnc
  | stealShutdown h => simpa using hnc
  | tick => simpa using hnc

/-- The `expect` read of the error channel at shutdown (mapreduce.rs:219)
never fires on an empty channel: the panic outcome is unreachable. -/
theorem mrNoCrash_reach {V J E : Type} {fMap : V → Except E J}
    {fRed : J → J → Except E J} {inputs : List V} {n0 : Nat}
    {s : MRState V J E} (hn : 1 ≤ n0)
    (h : MRReach fMap fRed (mrInit inputs n0) s) :
    s.done ≠ some ROutcome.crashed := by
  induction h with
  | refl => simp [mrInit]
  | tail hab hstep ih =>
      exact mrNoCrash_step hn (mrCoreInv_reach hn hab) ih hstep

/-! # Claim theorems -/

/-- C1 (counterexample to the claim as stated): with one submitted vertex,
`map = fun _ => 1` and `reduce = (+)`, there is a run finishing gracefully
whose result is `Null`, not `1`: the router observes the shutdown signal
(priority 2, mapreduce.rs:181) before ever polling the input channel
(priority 5, mapreduce.rs:200), and `pending == 0` ends the loop with the
vertex still queued. -/
theorem c1_counterexample :
    MRReach (pureMap (fun _ : Unit => (1 : Int))) addRed
      (mrInit [()] 1) mrDropFinal ∧
    mrDropFinal.done = some (ROutcome.ok none) ∧
    mrDropFinal.inputQ = [()] ∧
    (([()].map (fun _ : Unit => (1 : Int))).sum = 1) ∧
    mrDropFinal.done ≠ some (ROutcome.ok (some 1)) :=
  ⟨mrDropReach, rfl, rfl, by decide, by decide⟩

/-- C1 (amended): in every run with `map` a pure function `f`, `reduce`
integer addition, at least one worker, and a nonempty input multiset, if
the run finishes gracefully **having consumed every submitted vertex**,
then its result is exactly `Σ f(v)` — for any worker count and any
interleaving of worker outputs. -/
theorem c1_sum_identity {V : Type} (f : V → Int) (inputs : List V)
    (n0 : Nat) (s : MRState V Int Empty) (c : Option Int)
    (hn : 1 ≤ n0)
    (hreach : MRReach (pureMap f) addRed (mrInit inputs n0) s)
    (hdone : s.done = some (ROutcome.ok c))
    (hinp : s.inputQ = [])
    (hne : inputs ≠ []) :
    c = some ((inputs.map f).sum) :=
  mrGraceful_sum hn hreach hdone hinp hne

/-- C1 witness: a concrete one-vertex run with `map = fun _ => 2` whose
graceful result the theorem pins to `some 2`. -/
theorem c1_witness :
    (mrGoodFinal.done = some (ROutcome.ok (some 2)) ∧
     mrGoodFinal.inputQ = [] ∧ ([()] : List Unit) ≠ []) ∧
    (some 2 : Option Int) = some (([()].map (fun _ : Unit => (2 : Int))).sum) :=
  ⟨⟨rfl, rfl, by decide⟩,
   c1_sum_identity (fun _ : Unit => 2) [()] 1 mrGoodFinal (some 2)
     (le_refl 1) mrGoodReach rfl rfl (by decide)⟩

/-- C2: each router iteration's closing check exits the loop exactly when
`force_shutdown ∨ (graceful_shutdown ∧ pending = 0)` — in the MR draft
(mapreduce.rs:211, the loop returns, recording `done`) and in the WK draft
(workers.rs:178, the loop exits, recorded by `exited`).  In particular a
graceful request with `pending > 0` never ends the loop. -/
theorem c2_termination_predicate {V J E : Type} :
    (∀ s : MRState V J E, s.done = none →
       ((mrCheck s).done ≠ none ↔
         (s.force = true ∨ (s.graceful = true ∧ s.pending = 0)))) ∧
    (∀ s : WKState V J E, s.exited = false →
       ((wkCheck s).exited = true ↔
         (s.force = true ∨ (s.graceful = true ∧ s.pending = 0)))) := by
  constructor
  · intro s hd
    by_cases hp : s.force = true ∨ (s.graceful = true ∧ s.pending = 0)
    · rw [mrCheck_done_of_pred hp]
      simp [hp]
    · rw [mrCheck_done_of_not hp]
      simp [hd, hp]
  · intro s hex
    rw [wkCheck_exited_iff]
    simp [hex]

/-- C2 witness: a state with the graceful predicate satisfied exits in
both drafts; one with `pending = 1` does not. -/
theorem c2_witness :
    ((mrCheck { mrInit ([] : List Unit) 1 with
                  graceful := true } : MRState Unit Int Empty).done ≠ none) ∧
    ((wkCheck { wkInit ([] : List Unit) 1 with
                  graceful := true } : WKState Unit Int Empty).exited = true) ∧
    ¬((mrCheck { mrInit ([] : List Unit) 1 with
                   graceful := true, pending := 1 } :
         MRState Unit Int Empty).done ≠ none) :=
  ⟨(c2_termination_predicate.1 _ rfl).mpr (Or.inr ⟨rfl, rfl⟩),
   (c2_termination_predicate.2 _ rfl).mpr (Or.inr ⟨rfl, rfl⟩),
   fun h => by
     have := (c2_termination_predicate.1
       { mrInit ([] : List Unit) 1 with graceful := true, pending := 1 }
       rfl).mp h
     simp [mrInit] at this⟩

/-- C3 (counterexample to the claim as stated): a run whose only dispatch
fails.  `should_force_shutdown` is set, yet `pending_tasks` and `progress`
are both incremented for the discarded task (mapreduce.rs:202-207 has no
`else` around the increments), so the counters do not stay unchanged:
`pending = 1` and `progress = 1` although nothing was ever issued
(`issued = 0`). -/
theorem c3_counterexample :
    MRReach (fun _ : Unit => (Except.ok 1 : Except Unit Int))
      (fun a b => Except.ok (a + b)) (mrInit [()] 1) mrSendFailFinal ∧
    mrSendFailFinal.force = true ∧
    mrSendFailFinal.issued = 0 ∧
    mrSendFailFinal.pending = 1 ∧
    mrSendFailFinal.progress = 1 ∧
    (mrInit (J := Int) (E := Unit) [()] 1).pending = 0 ∧
    (mrInit (J := Int) (E := Unit) [()] 1).progress = 0 :=
  ⟨mrSendFailReach, rfl, rfl, rfl, rfl, rfl, rfl⟩

/-- C3 (amended): a failed dispatch sets `force_shutdown` and issues
nothing, and the iteration's check then ends the loop at once.  In the MR
draft the `pending_tasks` (and, for Map, `progress`) increments still run
for the discarded task; in the WK draft the counters are left unchanged
(the `else` at workers.rs:151-153 and 162-164). -/
theorem c3_failed_dispatch {V J E : Type} :
    (∀ (s : MRState V J E) (v : V), s.alive = 0 →
       (mrIterB (PendAct.map v) s).force = true ∧
       (mrIterB (PendAct.map v) s).issued = s.issued ∧
       (mrIterB (PendAct.map v) s).workerInQ = s.workerInQ ∧
       (mrIterB (PendAct.map v) s).pending = s.pending + 1 ∧
       (mrIterB (PendAct.map v) s).progress = s.progress + 1 ∧
       (mrIterB (PendAct.map v) s).done ≠ none) ∧
    (∀ (s : MRState V J E) (a b : J), s.alive = 0 →
       (mrIterB (PendAct.red a b) s).force = true ∧
       (mrIterB (PendAct.red a b) s).issued = s.issued ∧
       (mrIterB (PendAct.red a b) s).workerInQ = s.workerInQ ∧
       (mrIterB (PendAct.red a b) s).pending = s.pending + 1 ∧
       (mrIterB (PendAct.red a b) s).done ≠ none) ∧
    (∀ (s : WKState V J E) (v : V), s.alive = 0 →
       wkHandleVertex v s = wkCheck { s with force := true }) ∧
    (∀ (s : WKState V J E) (v c : J), s.alive = 0 → s.carry = some c →
       wkHandleOutput v s =
         wkCheck { s with pending := s.pending - 1,
                          completed := s.completed + 1,
                          force := true, carry := none }) := by
  refine ⟨?_, ?_, ?_, ?_⟩
  · intro s v hz
    rw [mrIterB_map_fail (by omega)]
    refine ⟨by simp, by simp, by simp, by simp, by simp, ?_⟩
    rw [mrCheck_done_of_pred (Or.inl rfl)]
    simp
  · intro s a b hz
    rw [mrIterB_red_fail (by omega)]
    refine ⟨by simp, by simp, by simp, by simp, ?_⟩
    rw [mrCheck_done_of_pred (Or.inl rfl)]
    simp
  · intro s v hz
    unfold wkHandleVertex
    rw [if_neg (by omega)]
  · intro s v c hz hc
    unfold wkHandleOutput
    rw [hc]
    simp only []
    rw [if_neg (by omega)]

/-- C3 witness: the failed-dispatch facts evaluated on a concrete state
with no live workers. -/
theorem c3_witness :
    (mrIterB (PendAct.map ())
        (mrInit ([] : List Unit) 0 : MRState Unit Int Unit)).force = true ∧
    (mrIterB (PendAct.map ())
        (mrInit ([] : List Unit) 0 : MRState Unit Int Unit)).issued = 0 ∧
    (mrIterB (PendAct.map ())
        (mrInit ([] : List Unit) 0 : MRState Unit Int Unit)).workerInQ = [] ∧
    (mrIterB (PendAct.map ())
        (mrInit ([] : List Unit) 0 : MRState Unit Int Unit)).pending = 1 ∧
    (mrIterB (PendAct.map ())
        (mrInit ([] : List Unit) 0 : MRState Unit Int Unit)).progress = 1 ∧
    (mrIterB (PendAct.map ())
        (mrInit ([] : List Unit) 0 : MRState Unit Int Unit)).done ≠ none :=
  c3_failed_dispatch.1 (mrInit ([] : List Unit) 0) () rfl

/-- C4 (counterexample to the claim as stated): a run in which the
dispatcher consumes two worker outputs — the first becomes the carry, and
while the second is being paired with it all workers die, so the
`Reduce(carry, value)` send fails.  No Reduce task is ever emitted
(`redIssued = 0`) and the carry is cleared anyway (both values are
dropped), contradicting "if a carry is held, the dispatcher emits a Reduce
task …". -/
theorem c4_counterexample :
    MRReach c4map c4red (mrInit [1, 2, 3] 2) mrRedDropFinal ∧
    mrRedDropFinal.completed = 2 ∧
    mrRedDropFinal.redIssued = 0 ∧
    mrRedDropFinal.carry = none ∧
    mrRedDropFinal.workerInQ = [] ∧
    mrRedDropFinal.done = some (ROutcome.err 7) :=
  ⟨mrRedDropReach, rfl, rfl, rfl, rfl, rfl⟩

/-- C4 (amended): every consumed worker output either becomes the carry
(no carry held) or is paired with the held carry into an **attempted**
`Reduce(carry, value)` dispatch that clears the carry: the task is emitted
when some worker is still alive, and when the send fails both values are
discarded and `force_shutdown` is set instead.  At most one carry ever
exists. -/
theorem c4_carry_pairing {V J E : Type} :
    (∀ (s : MRState V J E) (v : J) (rest : List J),
       s.errorQ = [] → s.shutdownQ = 0 → s.reportQ = 0 →
       s.workerOutQ = v :: rest → s.carry = none →
       mrIterA s = mrCheck { s with workerOutQ := rest,
                                    pending := s.pending - 1,
                                    completed := s.completed + 1,
                                    carry := some v }) ∧
    (∀ (s : MRState V J E) (v : J) (rest : List J) (c : J),
       s.errorQ = [] → s.shutdownQ = 0 → s.reportQ = 0 →
       s.workerOutQ = v :: rest → s.carry = some c →
       mrIterA s = { s with workerOutQ := rest, pending := s.pending - 1,
                            completed := s.completed + 1,
                            rpc := some (PendAct.red c v) }) ∧
    (∀ (s : MRState V J E) (a b : J), 0 < s.alive →
       (mrIterB (PendAct.red a b) s).workerInQ =
         s.workerInQ ++ [WTask.reduce a b] ∧
       (mrIterB (PendAct.red a b) s).redIssued = s.redIssued + 1 ∧
       (mrIterB (PendAct.red a b) s).carry = none ∧
       (mrIterB (PendAct.red a b) s).force = s.force) ∧
    (∀ (s : MRState V J E) (a b : J), s.alive = 0 →
       (mrIterB (PendAct.red a b) s).workerInQ = s.workerInQ ∧
       (mrIterB (PendAct.red a b) s).redIssued = s.redIssued ∧
       (mrIterB (PendAct.red a b) s).carry = none ∧
       (mrIterB (PendAct.red a b) s).force = true) ∧
    (∀ s : MRState V J E, optCount s.carry ≤ 1) := by
  refine ⟨?_, ?_, ?_, ?_, ?_⟩
  · intro s v rest h1 h2 h3 h4 h5
    exact mrIterA_outNone h1 h2 h3 h4 h5
  · intro s v rest c h1 h2 h3 h4 h5
    exact mrIterA_outCarry h1 h2 h3 h4 h5
  · intro s a b hal
    rw [mrIterB_red_ok hal]
    exact ⟨by simp, by simp, by simp, by simp⟩
  · intro s a b hz
    rw [mrIterB_red_fail (by omega)]
    exact ⟨by simp, by simp, by simp, by simp⟩
  · intro s
    cases s.carry with
    | none => simp [optCount]
    | some c => simp [optCount]

/-- C4 witness: the pairing facts evaluated on concrete states — an output
with no carry becomes the carry; with a carry and a live worker the Reduce
task is emitted. -/
theorem c4_witness :
    mrIterA { (mrInit ([] : List Unit) 1 : MRState Unit Int Empty) with
                workerOutQ := [5] } =
      mrCheck { (mrInit ([] : List Unit) 1 : MRState Unit Int Empty) with
                  workerOutQ := [], pending := 0,
                  completed := 1, carry := some 5 } ∧
    (mrIterB (PendAct.red 5 6)
        (mrInit ([] : List Unit) 1 : MRState Unit Int Empty)).workerInQ =
      [WTask.reduce 5 6] ∧
    (mrIterB (PendAct.red 5 6)
        (mrInit ([] : List Unit) 1 : MRState Unit Int Empty)).carry = none :=
  ⟨c4_carry_pairing.1
     { (mrInit ([] : List Unit) 1 : MRState Unit Int Empty) with
         workerOutQ := [5] }
     5 [] rfl rfl rfl rfl rfl,
   (c4_carry_pairing.2.2.1 (mrInit ([] : List Unit) 1) 5 6 (by decide)).1,
   (c4_carry_pairing.2.2.1 (mrInit ([] : List Unit) 1) 5 6 (by decide)).2.2.1⟩

/-- C5 (counterexample to the claim as stated): after the failed dispatch
of `mrSendFailFinal`, the pending count is 1 while zero tasks were issued
and zero outputs consumed — `pending ≠ issued − consumed`
(mapreduce.rs:206 increments `pending_tasks` although the send at
mapreduce.rs:202 failed). -/
theorem c5_counterexample :
    MRReach (fun _ : Unit => (Except.ok 1 : Except Unit Int))
      (fun a b => Except.ok (a + b)) (mrInit [()] 1) mrSendFailFinal ∧
    mrSendFailFinal.issued = 0 ∧
    mrSendFailFinal.completed = 0 ∧
    mrSendFailFinal.pending ≠
      mrSendFailFinal.issued - mrSendFailFinal.completed :=
  ⟨mrSendFailReach, rfl, rfl, by decide⟩

/-- C5 (amended): in every reachable MR state with `force_shutdown` unset,
`pending = issued − consumed` (as an exact Nat identity
`pending + consumed = issued`); in the WK draft the identity holds
unconditionally.  In both drafts the decrement on receiving an output
never underflows: whenever the output branch can fire, `pending > 0`. -/
theorem c5_pending_balance {V J E : Type} (fMap : V → Except E J)
    (fRed : J → J → Except E J) (inputs : List V) (n0 : Nat)
    (s : MRState V J E) (t : WKState V J E) (hn : 1 ≤ n0)
    (hmr : MRReach fMap fRed (mrInit inputs n0) s)
    (hwk : WKReach fMap fRed (wkInit inputs n0) t) :
    (s.force = false → s.pending + s.completed = s.issued) ∧
    (s.errorQ = [] → s.workerOutQ ≠ [] → 0 < s.pending) ∧
    (t.pending + t.completed = t.issued) ∧
    (t.workerOutQ ≠ [] → 0 < t.pending) := by
  have hc := mrCoreInv_reach hn hmr
  have hw := wkCoreInv_reach hn hwk
  refine ⟨hc.bal, ?_, hw.bal, ?_⟩
  · intro hE hne
    have hforce : s.force = false := by
      cases hv : s.force with
      | false => rfl
      | true =>
          obtain ⟨e, he, _⟩ := hc.doneErr hv
          rw [hE] at he
          simp at he
    have hbal := hc.bal hforce
    have hacct := hc.acct
    cases hO : s.workerOutQ with
    | nil => exact absurd hO hne
    | cons v rest =>
        rw [hO] at hacct
        simp at hacct
        omega
  · intro hne
    have hbal := hw.bal
    have hacct := hw.acct
    cases hO : t.workerOutQ with
    | nil => exact absurd hO hne
    | cons v rest =>
        rw [hO] at hacct
        simp at hacct
        omega

/-- C5 witness: the balance evaluated on the concrete successful run (MR)
and on the initial WK state. -/
theorem c5_witness :
    (mrGoodFinal.force = false →
       mrGoodFinal.pending + mrGoodFinal.completed = mrGoodFinal.issued) ∧
    ((wkInit [()] 1 : WKState Unit Int Empty).pending +
       (wkInit [()] 1 : WKState Unit Int Empty).completed =
       (wkInit [()] 1 : WKState Unit Int Empty).issued) :=
  ⟨(c5_pending_balance (pureMap (fun _ : Unit => (2 : Int))) addRed [()] 1
      mrGoodFinal (wkInit [()] 1) (le_refl 1) mrGoodReach
      Relation.ReflTransGen.refl).1,
   (c5_pending_balance (pureMap (fun _ : Unit => (2 : Int))) addRed [()] 1
      mrGoodFinal (wkInit [()] 1) (le_refl 1) mrGoodReach
      Relation.ReflTransGen.refl).2.2.1⟩

/-- Schedule reaching `wkForceFinal`: the worker dies in setup, the
vertex dispatch then fails, forcing shutdown; the joins surface the error. -/
theorem wkForceReach :
    WKReach (fun _ : Unit => (Except.ok 1 : Except Unit Int))
      (fun a b => Except.ok (a + b)) (wkInit [()] 1) wkForceFinal := by
  have h1 : WKStep (fun _ : Unit => (Except.ok 1 : Except Unit Int))
      (fun a b => Except.ok (a + b))
      (wkInit [()] 1)
      { pending := 0, force := false, graceful := false, carry := none,
        exited := false, done := none, shutdownQ := 0, workerOutQ := [],
        workerInQ := [], inputQ := [()], alive := 0, deadErrs := [()],
        issued := 0, completed := 0, deadTasks := 0 } :=
    WKStep.setupFail () rfl (by decide)
  have h2 : WKStep (fun _ : Unit => (Except.ok 1 : Except Unit Int))
      (fun a b => Except.ok (a + b))
      { pending := 0, force := false, graceful := false, carry := none,
        exited := false, done := none, shutdownQ := 0, workerOutQ := [],
        workerInQ := [], inputQ := [()], alive := 0, deadErrs := [()],
        issued := 0, completed := 0, deadTasks := 0 }
      { pending := 0, force := true, graceful := false, carry := none,
        exited := true, done := none, shutdownQ := 0, workerOutQ := [],
        workerInQ := [], inputQ := [], alive := 0, deadErrs := [()],
        issued := 0, completed := 0, deadTasks := 0 } :=
    WKStep.vertex rfl rfl
  have h3 : WKStep (fun _ : Unit => (Except.ok 1 : Except Unit Int))
      (fun a b => Except.ok (a + b))
      { pending := 0, force := true, graceful := false, carry := none,
        exited := true, done := none, shutdownQ := 0, workerOutQ := [],
        workerInQ := [], inputQ := [], alive := 0, deadErrs := [()],
        issued := 0, completed := 0, deadTasks := 0 }
      wkForceFinal :=
    WKStep.joinFinish rfl rfl
  exact Relation.ReflTransGen.tail
    (Relation.ReflTransGen.tail (Relation.ReflTransGen.single h1) h2) h3

/-- Schedule for an empty-input MR run: the shutdown signal is queued and
the first router iteration terminates the run with result `Null`. -/
theorem mrEmptyReach :
    MRReach (pureMap (fun _ : Unit => (1 : Int))) addRed
      (mrInit [] 1)
      { progress := 0, pending := 0, reportNum := 0, force := false,
        graceful := true, carry := none, rpc := none,
        done := some (ROutcome.ok none), errorQ := [], shutdownQ := 0,
        reportQ := 0, workerOutQ := [], workerInQ := [], inputQ := [],
        alive := 1, issued := 0, completed := 0, mapIssued := 0,
        redIssued := 0, deadTasks := 0 } := by
  have h1 : MRStep (pureMap (fun _ : Unit => (1 : Int))) addRed
      (mrInit [] 1)
      { mrInit (J := Int) (E := Empty) ([] : List Unit) 1 with
          shutdownQ := 1 } :=
    MRStep.signalShutdown
  have h2 : MRStep (pureMap (fun _ : Unit => (1 : Int))) addRed
      { mrInit (J := Int) (E := Empty) ([] : List Unit) 1 with
          shutdownQ := 1 }
      { progress := 0, pending := 0, reportNum := 0, force := false,
        graceful := true, carry := none, rpc := none,
        done := some (ROutcome.ok none), errorQ := [], shutdownQ := 0,
        reportQ := 0, workerOutQ := [], workerInQ := [], inputQ := [],
        alive := 1, issued := 0, completed := 0, mapIssued := 0,
        redIssued := 0, deadTasks := 0 } :=
    MRStep.routerA rfl rfl
  exact Relation.ReflTransGen.tail (Relation.ReflTransGen.single h1) h2

/-- C6 (counterexample to the claim as stated): a WK run with zero
submitted vertices and one worker whose setup fails terminates gracefully
(`graceful_shutdown` set, `pending = 0`, `force_shutdown` unset) yet
returns the worker's error instead of `Ok(Null)`: the `result?` loop at
workers.rs:182-184 propagates worker join errors even on the graceful
path. -/
theorem c6_counterexample :
    WKReach (fun _ : Unit => (Except.ok 0 : Except Unit Int))
      (fun a b => Except.ok (a + b)) (wkInit [] 1) wkErrFinal ∧
    wkErrFinal.graceful = true ∧
    wkErrFinal.force = false ∧
    wkErrFinal.pending = 0 ∧
    wkErrFinal.done = some (Except.error ()) ∧
    wkErrFinal.done ≠ some (Except.ok none) :=
  ⟨wkErrReach, rfl, rfl, rfl, rfl, by simp [wkErrFinal]⟩

/-- C6 (amended): in the MR draft, graceful termination returns `Ok` of
the carry (null when absent), and with zero submitted vertices the result
is null.  In the WK draft, graceful termination returns `Ok` of the carry
only when every worker thread returned `Ok`; otherwise the first worker
error is returned. -/
theorem c6_graceful_result {V J E : Type} :
    (∀ s : MRState V J E, s.force = false → s.graceful = true →
       s.pending = 0 → (mrCheck s).done = some (ROutcome.ok s.carry)) ∧
    (∀ (fMap : V → Except E J) (fRed : J → J → Except E J) (n0 : Nat)
       (s : MRState V J E) (c : Option J), 1 ≤ n0 →
       MRReach fMap fRed (mrInit [] n0) s →
       s.done = some (ROutcome.ok c) → c = none) ∧
    (∀ (fMap : V → Except E J) (fRed : J → J → Except E J)
       (inputs : List V) (n0 : Nat) (t : WKState V J E)
       (r : Except E (Option J)), 1 ≤ n0 →
       WKReach fMap fRed (wkInit inputs n0) t → t.done = some r →
       ((t.deadErrs = [] ∧ r = Except.ok t.carry) ∨
        (∃ e, t.deadErrs.head? = some e ∧ r = Except.error e))) := by
  refine ⟨?_, ?_, ?_⟩
  · intro s hf hg hp
    rw [mrCheck_done_of_pred (Or.inr ⟨hg, hp⟩)]
    unfold mrResult
    rw [hf]
    simp
  · intro fMap fRed n0 s c hn hreach hdone
    have hc := mrCoreInv_reach hn hreach
    obtain ⟨_, _, _, hcar⟩ := hc.doneOk c hdone
    have hcnt := hc.cntLe
    unfold mrCount at hcnt
    simp at hcnt
    cases hcv : s.carry with
    | none => rw [hcv] at hcar; exact hcar.symm
    | some x =>
        rw [hcv] at hcnt
        simp [optCount] at hcnt
  · intro fMap fRed inputs n0 t r hn hreach hdone
    have hw := wkCoreInv_reach hn hreach
    have hval := hw.doneVal r hdone
    cases hD : t.deadErrs with
    | nil =>
        rw [hD] at hval
        exact Or.inl ⟨rfl, by simpa [wkFinale] using hval⟩
    | cons e es =>
        rw [hD] at hval
        exact Or.inr ⟨e, by simp, by simpa [wkFinale] using hval⟩

/-- C6 witness: the graceful result rules evaluated on concrete runs — a
graceful MR check returns the carry; the empty-input MR run returns null;
the WK run with a failed worker returns its error. -/
theorem c6_witness :
    (mrCheck { mrInit ([] : List Unit) 1 with
                 graceful := true, carry := some 3 } :
       MRState Unit Int Empty).done = some (ROutcome.ok (some 3)) ∧
    ((none : Option Int) = none) ∧
    ((wkErrFinal.deadErrs = [] ∧
        (Except.error () : Except Unit (Option Int)) =
          Except.ok wkErrFinal.carry) ∨
     (∃ e, wkErrFinal.deadErrs.head? = some e ∧
        (Except.error () : Except Unit (Option Int)) = Except.error e)) := by
  refine ⟨?_, ?_, ?_⟩
  · have h := (c6_graceful_result (V := Unit) (J := Int) (E := Empty)).1
      ({ mrInit ([] : List Unit) 1 with
           graceful := true, carry := some 3 } : MRState Unit Int Empty)
      rfl rfl rfl
    simpa using h
  · exact c6_graceful_result.2.1 (pureMap (fun _ : Unit => (1 : Int)))
      addRed 1 _ none (le_refl 1) mrEmptyReach rfl
  · exact c6_graceful_result.2.2
      (fun _ : Unit => (Except.ok 0 : Except Unit Int))
      (fun a b => Except.ok (a + b)) [] 1 wkErrFinal (Except.error ())
      (le_refl 1) wkErrReach rfl

/-- C7: whenever the MR dispatcher terminates with `force_shutdown` set,
the error channel is nonempty and the run returned its first queued error;
the `expect` read at mapreduce.rs:219 can never fire on an empty channel.
In the WK draft a force-terminated run likewise returns the first dead
worker's error. -/
theorem c7_force_returns_first_error {V J E : Type} (fMap : V → Except E J)
    (fRed : J → J → Except E J) (inputs : List V) (n0 : Nat)
    (s : MRState V J E) (t : WKState V J E) (hn : 1 ≤ n0)
    (hmr : MRReach fMap fRed (mrInit inputs n0) s)
    (hwk : WKReach fMap fRed (wkInit inputs n0) t) :
    (s.force = true →
       ∃ e, s.errorQ.head? = some e ∧ s.done = some (ROutcome.err e)) ∧
    s.done ≠ some ROutcome.crashed ∧
    (∀ r, t.done = some r → t.force = true →
       ∃ e, t.deadErrs.head? = some e ∧ r = Except.error e) := by
  have hc := mrCoreInv_reach hn hmr
  have hw := wkCoreInv_reach hn hwk
  refine ⟨hc.doneErr, mrNoCrash_reach hn hmr, ?_⟩
  intro r hdone hf
  have hval := hw.doneVal r hdone
  have hne := hw.forceDead hf
  cases hD : t.deadErrs with
  | nil => exact absurd hD hne
  | cons e es =>
      rw [hD] at hval
      exact ⟨e, by simp [hD], by simpa [wkFinale] using hval⟩

/-- C7 witness: the force-shutdown rules evaluated on the concrete failed
runs of both drafts. -/
theorem c7_witness :
    (∃ e, mrSendFailFinal.errorQ.head? = some e ∧
       mrSendFailFinal.done = some (ROutcome.err e)) ∧
    mrSendFailFinal.done ≠ some ROutcome.crashed ∧
    (∃ e, wkForceFinal.deadErrs.head? = some e ∧
       (Except.error () : Except Unit (Option Int)) = Except.error e) :=
  ⟨(c7_force_returns_first_error
      (fun _ : Unit => (Except.ok 1 : Except Unit Int))
      (fun a b => Except.ok (a + b)) [()] 1 mrSendFailFinal wkForceFinal
      (le_refl 1) mrSendFailReach wkForceReach).1 rfl,
   (c7_force_returns_first_error
      (fun _ : Unit => (Except.ok 1 : Except Unit Int))
      (fun a b => Except.ok (a + b)) [()] 1 mrSendFailFinal wkForceFinal
      (le_refl 1) mrSendFailReach wkForceReach).2.1,
   (c7_force_returns_first_error
      (fun _ : Unit => (Except.ok 1 : Except Unit Int))
      (fun a b => Except.ok (a + b)) [()] 1 mrSendFailFinal wkForceFinal
      (le_refl 1) mrSendFailReach wkForceReach).2.2
     (Except.error ()) rfl rfl⟩

/-- C8: the router iteration implemented by the if/else chain at
mapreduce.rs:178-208 coincides, on every state, with the spec's policy
"find the first queued source in the fixed priority order worker-errors,
shutdown, reporter tick, worker output, input vertex, and handle only it":
`mrIterA` equals the spec-side `mrSpecIter` built from `List.find?` over
that priority list. -/
theorem c8_priority_order {V J E : Type} (s : MRState V J E) :
    mrIterA s = mrSpecIter s := by
  unfold mrSpecIter mrSourceOrder
  cases hE : s.errorQ with
  | cons e es =>
      rw [mrIterA_err hE]
      rw [List.find?_cons_of_pos _ (by simp [mrSourceQueued, hE])]
      rfl
  | nil =>
  cases hS : s.shutdownQ with
  | succ n =>
      rw [mrIterA_sd hE hS]
      rw [List.find?_cons_of_neg _ (by simp [mrSourceQueued, hE]),
          List.find?_cons_of_pos _ (by simp [mrSourceQueued, hS])]
      unfold mrSpecHandle
      rw [hS]
      simp
  | zero =>
  cases hR : s.reportQ with
  | succ n =>
      rw [mrIterA_rep hE hS hR]
      rw [List.find?_cons_of_neg _ (by simp [mrSourceQueued, hE]),
          List.find?_cons_of_neg _ (by simp [mrSourceQueued, hS]),
          List.find?_cons_of_pos _ (by simp [mrSourceQueued, hR])]
      unfold mrSpecHandle
      rw [hR]
      simp
  | zero =>
  cases hO : s.workerOutQ with
  | cons v rest =>
      rw [List.find?_cons_of_neg _ (by simp [mrSourceQueued, hE]),
          List.find?_cons_of_neg _ (by simp [mrSourceQueued, hS]),
          List.find?_cons_of_neg _ (by simp [mrSourceQueued, hR]),
          List.find?_cons_of_pos _ (by simp [mrSourceQueued, hO])]
      unfold mrSpecHandle
      rw [hO]
      cases hC : s.carry with
      | some c =>
          rw [mrIterA_outCarry hE hS hR hO hC]
          simp [hC]
      | none =>
          rw [mrIterA_outNone hE hS hR hO hC]
  | nil =>
  cases hI : s.inputQ with
  | cons v rest =>
      rw [mrIterA_in hE hS hR hO hI]
      rw [List.find?_cons_of_neg _ (by simp [mrSourceQueued, hE]),
          List.find?_cons_of_neg _ (by simp [mrSourceQueued, hS]),
          List.find?_cons_of_neg _ (by simp [mrSourceQueued, hR]),
          List.find?_cons_of_neg _ (by simp [mrSourceQueued, hO]),
          List.find?_cons_of_pos _ (by simp [mrSourceQueued, hI])]
      unfold mrSpecHandle
      rw [hI]
  | nil =>
      rw [mrIterA_idle hE hS hR hO hI]
      rw [List.find?_cons_of_neg _ (by simp [mrSourceQueued, hE]),
          List.find?_cons_of_neg _ (by simp [mrSourceQueued, hS]),
          List.find?_cons_of_neg _ (by simp [mrSourceQueued, hR]),
          List.find?_cons_of_neg _ (by simp [mrSourceQueued, hO]),
          List.find?_cons_of_neg _ (by simp [mrSourceQueued, hI])]
      rfl

/-- C9 (counterexample to the claim as stated): a run with exactly one
submitted vertex and a total (never-failing) map in which the dispatcher
issues **zero** Map tasks and returns `Ok(Null)` rather than `map(v)`: the
shutdown signal is observed before the input channel is polled. -/
theorem c9_counterexample :
    MRReach (pureMap (fun _ : Unit => (1 : Int))) addRed
      (mrInit [()] 1) mrDropFinal ∧
    mrDropFinal.mapIssued = 0 ∧
    mrDropFinal.redIssued = 0 ∧
    mrDropFinal.done = some (ROutcome.ok none) ∧
    mrDropFinal.done ≠
      some (ROutcome.ok (some ((fun _ : Unit => (1 : Int)) ()))) :=
  ⟨mrDropReach, rfl, rfl, rfl, by simp [mrDropFinal]⟩

/-- C9 (amended): in every run with exactly one submitted vertex, a pure
map `f`, integer-addition reduce and at least one worker, if the run
finishes gracefully **having consumed the vertex**, then exactly one Map
task and zero Reduce tasks were issued, the single map output is the
final carry, and the result equals `map(v)`. -/
theorem c9_single_input {V : Type} (f : V → Int) (v : V) (n0 : Nat)
    (s : MRState V Int Empty) (c : Option Int) (hn : 1 ≤ n0)
    (hreach : MRReach (pureMap f) addRed (mrInit [v] n0) s)
    (hdone : s.done = some (ROutcome.ok c))
    (hinp : s.inputQ = []) :
    s.mapIssued = 1 ∧ s.redIssued = 0 ∧ s.carry = some (f v) ∧
    c = some (f v) := by
  have hsum := mrSumInv_reach hn hreach
  have hcore := mrCoreInv_reach hn hreach
  have hrpc : s.rpc = none := hcore.rpcNone (by rw [hdone]; simp)
  have hmap := hsum.mapAcct
  rw [hinp, hrpc] at hmap
  simp at hmap
  have hred := hsum.redZero (by simp)
  have hc : c = some (f v) := by
    have := mrGraceful_sum hn hreach hdone hinp (by simp)
    simpa using this
  obtain ⟨_, _, _, hcar, _⟩ := mrGraceful_extract hn hreach hdone
  exact ⟨hmap, hred, by rw [hcar, hc], hc⟩

/-- C9 witness: the concrete one-vertex run `mrGoodFinal` with
`map = fun _ => 2`: one Map, zero Reduces, carry and result `2`. -/
theorem c9_witness :
    mrGoodFinal.mapIssued = 1 ∧ mrGoodFinal.redIssued = 0 ∧
    mrGoodFinal.carry = some 2 ∧ (some 2 : Option Int) = some 2 :=
  c9_single_input (fun _ : Unit => 2) () 1 mrGoodFinal (some 2)
    (le_refl 1) mrGoodReach rfl rfl

/-- C10: worker setup extracts the `map` and then the `reduce` callable
before the task loop starts (mapreduce.rs:64-80, workers.rs:66-67), so
when `table.get("reduce")` fails the worker emits a `WorkerSetup` error
(MR) or its thread returns the script error (WK) and processes zero tasks
— for every task list, including the empty and the singleton one, i.e.
even for runs in which `reduce` would never have been invoked. -/
theorem c10_setup_requires_reduce {V J E : Type} (env : LuaEnv V J E)
    (tasks : List (WTask V J)) (e : E) (m : V → Except E J)
    (h1 : env.createCtx = Except.ok ()) (h2 : env.evalScript = Except.ok ())
    (h3 : env.getMap = Except.ok m) (h4 : env.getReduce = Except.error e) :
    mrWorkerRun env tasks =
      ([MRError.workerSetup
          "Error occurred trying to get the `reduce` function from the returned table"
          e], []) ∧
    wkWorkerRun env tasks = (Except.error e, []) := by
  constructor
  · unfold mrWorkerRun mrWorkerSetup
    rw [h1, h2, h3, h4]
  · unfold wkWorkerRun
    rw [h1, h2, h3, h4]

/-- C10 witness: a concrete environment whose table lacks `reduce`, run on
the empty task list and on a single Map task: the setup error is emitted
and no task is processed. -/
theorem c10_witness :
    mrWorkerRun
      ({ createCtx := Except.ok (), evalScript := Except.ok (),
         getMap := Except.ok (fun _ : Unit => (Except.ok 0 : Except Unit Int)),
         getReduce := Except.error () } : LuaEnv Unit Int Unit)
      [WTask.map ()] =
      ([MRError.workerSetup
          "Error occurred trying to get the `reduce` function from the returned table"
          ()], []) ∧
    wkWorkerRun
      ({ createCtx := Except.ok (), evalScript := Except.ok (),
         getMap := Except.ok (fun _ : Unit => (Except.ok 0 : Except Unit Int)),
         getReduce := Except.error () } : LuaEnv Unit Int Unit)
      [] = (Except.error (), []) :=
  ⟨(c10_setup_requires_reduce _ [WTask.map ()] ()
      (fun _ : Unit => (Except.ok 0 : Except Unit Int)) rfl rfl rfl rfl).1,
   (c10_setup_requires_reduce _ [] ()
      (fun _ : Unit => (Except.ok 0 : Except Unit Int)) rfl rfl rfl rfl).2⟩
